import Mathlib

/-!
Verification development for the NeoBanka cross-chain exchange.

This file gives a shallow embedding of the on-chain settlement contract
(`orderbook/smart_contract/contracts/TradeSettlement.sol`) and of the
frontend order-admission hooks (`frontend/src/hooks/useTrade.ts`,
`frontend/src/hooks/useTradeCross.ts`, and the legacy hook kept in the
repository), together with proofs about escrow accounting, settlement
atomicity, replay handling, refunds and order admission.

Modelling conventions:
* `uint256` values are natural numbers; Solidity 0.8 uses checked
  arithmetic, so every arithmetic step is an `Option`-valued checked
  operation that yields `none` (revert) on overflow or underflow.
* Each external entry point is a function from its arguments and a
  pre-state to `Option` of a post-state (plus the ERC-20 transfers it
  performs); `none` models a revert, which in the EVM rolls back every
  state change of the call, so reverting calls leave the state unchanged
  by construction.
* The success of an external ERC-20 `transfer`/`transferFrom` call is a
  boolean chosen by the environment and passed as an argument.
* `keccak256(abi.encodePacked s)` comparisons of side strings are
  modelled as string equality, and the trade hash of
  `settleSameChainTrade` as the tuple of hashed fields (keccak is
  treated as injective).
-/

namespace NeoBanka

/-- Addresses (20-byte EVM addresses) are modelled as natural numbers. -/
abbrev Addr := Nat

/-- The largest value representable in a Solidity `uint256`. -/
def uintMax : Nat := 2 ^ 256 - 1

/-- Checked `uint256` addition: Solidity 0.8 reverts on overflow. -/
def uadd (a b : Nat) : Option Nat :=
  if a + b ≤ uintMax then some (a + b) else none

/-- Checked `uint256` subtraction: Solidity 0.8 reverts on underflow. -/
def usub (a b : Nat) : Option Nat :=
  if b ≤ a then some (a - b) else none

/-- Checked `uint256` multiplication: Solidity 0.8 reverts on overflow. -/
def umul (a b : Nat) : Option Nat :=
  if a * b ≤ uintMax then some (a * b) else none

/-- Point update of a double-keyed mapping. -/
def upd2 {α : Type} (m : Nat → Nat → α) (a b : Nat) (v : α) : Nat → Nat → α :=
  fun x y => if x = a ∧ y = b then v else m x y

/-- Point update of a single-keyed mapping. -/
def upd1 {κ α : Type} [DecidableEq κ] (m : κ → α) (k : κ) (v : α) : κ → α :=
  fun x => if x = k then v else m x

/-- The `CrossChainTradeData` struct of `TradeSettlement.sol`. -/
structure CrossChainTradeData where
  orderId : Nat
  party1 : Addr
  party2 : Addr
  party1ReceiveWallet : Addr
  party2ReceiveWallet : Addr
  baseAsset : Addr
  quoteAsset : Addr
  price : Nat
  quantity : Nat
  party1Side : String
  party2Side : String
  sourceChainId : Nat
  destinationChainId : Nat
  timestamp : Nat
  nonce1 : Nat
  nonce2 : Nat
deriving DecidableEq

/-- The `SettlementStatus` struct of `TradeSettlement.sol`. -/
structure SettlementStatus where
  sourceChainSettled : Bool
  destinationChainSettled : Bool
  sourceChainTimestamp : Nat
  destinationChainTimestamp : Nat
  refunded : Bool
deriving DecidableEq

/-- The tuple hashed into the replay-protection trade hash of
`settleSameChainTrade` (keccak is modelled as injective, so the key is
the tuple itself). -/
structure TradeKey where
  orderId : Nat
  party1 : Addr
  party2 : Addr
  baseAsset : Addr
  quoteAsset : Addr
  price : Nat
  quantity : Nat
  sourceChainId : Nat
  destinationChainId : Nat
  timestamp : Nat
deriving DecidableEq

/-- EVM call context: `block.chainid`, `block.timestamp` and `msg.sender`. -/
structure EvmCtx where
  chainid : Nat
  timestamp : Nat
  sender : Addr

/-- One ERC-20 transfer performed by the contract (for `transferFrom`
refunds, `fromUser` is the wallet the tokens are pulled from). -/
structure Transfer where
  token : Addr
  fromUser : Addr
  toUser : Addr
  amount : Nat
deriving DecidableEq

/-- The `AsymmetricSettlementDetected` event. -/
structure AsymmetricEvent where
  orderId : Nat
  settledChainId : Nat
  failedChainId : Nat
  timestamp : Nat
deriving DecidableEq

/-- Storage of the `TradeSettlement` contract.  The legacy `orderLocks`
mapping is kept by the source for backward compatibility but never read
or written by any entry point, so it is omitted. -/
structure State where
  owner : Addr
  escrowBalances : Addr → Addr → Nat
  lockedBalances : Addr → Addr → Nat
  orderLocksByChain : Nat → Nat → Bool
  settledCrossChainOrders : Nat → Bool
  nonces : Addr → Addr → Nat
  executedTrades : TradeKey → Bool
  settlementStatuses : Nat → SettlementStatus
  settlementByChain : Nat → Nat → Bool

/-- Contract state right after the constructor ran: every mapping is
zeroed and the deployer is the owner. -/
def initState (deployer : Addr) : State where
  owner := deployer
  escrowBalances := fun _ _ => 0
  lockedBalances := fun _ _ => 0
  orderLocksByChain := fun _ _ => false
  settledCrossChainOrders := fun _ => false
  nonces := fun _ _ => 0
  executedTrades := fun _ => false
  settlementStatuses := fun _ => ⟨false, false, 0, 0, false⟩
  settlementByChain := fun _ _ => false

/-- `depositToEscrow(token, amount)`: requires `amount > 0`, pulls the
tokens via `transferFrom` (success decided by `xferOk`), then credits
the sender's escrow. -/
def depositToEscrow (ctx : EvmCtx) (xferOk : Bool) (token amount : Nat)
    (s : State) : Option State :=
  if amount > 0 then
    if xferOk then
      match uadd (s.escrowBalances ctx.sender token) amount with
      | some v =>
          some { s with escrowBalances := upd2 s.escrowBalances ctx.sender token v }
      | none => none
    else none
  else none

/-- `withdrawFromEscrow(token, amount)`: computes the available balance
(the subtraction itself is checked), requires `amount > 0` and
`available ≥ amount`, debits the escrow and pays the sender out. -/
def withdrawFromEscrow (ctx : EvmCtx) (xferOk : Bool) (token amount : Nat)
    (s : State) : Option State :=
  match usub (s.escrowBalances ctx.sender token) (s.lockedBalances ctx.sender token) with
  | none => none
  | some availableBalance =>
    if amount > 0 then
      if availableBalance ≥ amount then
        match usub (s.escrowBalances ctx.sender token) amount with
        | some v =>
            if xferOk then
              some { s with escrowBalances := upd2 s.escrowBalances ctx.sender token v }
            else none
        | none => none
      else none
    else none

/-- `lockEscrowForOrder(user, token, amount, orderId)` (onlyOwner): one
lock per `(orderId, chainid)`, requires enough available escrow, then
raises the locked balance. -/
def lockEscrowForOrder (ctx : EvmCtx) (user token amount orderId : Nat)
    (s : State) : Option State :=
  if ctx.sender = s.owner then
    if s.orderLocksByChain orderId ctx.chainid then none
    else
      match usub (s.escrowBalances user token) (s.lockedBalances user token) with
      | none => none
      | some availableBalance =>
        if availableBalance ≥ amount then
          match uadd (s.lockedBalances user token) amount with
          | some v =>
              some { s with
                lockedBalances := upd2 s.lockedBalances user token v
                orderLocksByChain := upd2 s.orderLocksByChain orderId ctx.chainid true }
          | none => none
        else none
  else none

/-- The opposite-sides validation shared by `settleCrossChainTrade` and
`settleSameChainTrade` (keccak string comparison modelled as string
equality). -/
def validSides (td : CrossChainTradeData) : Bool :=
  (td.party1Side == "ask" && td.party2Side == "bid") ||
  (td.party1Side == "bid" && td.party2Side == "ask")

/-- `_ensureLockForCurrentChain`: a no-op when the order is already
locked on this chain; otherwise lazily locks the base leg from party1
(which must be on the ask side) or the quote leg from party2 (which must
be on the bid side). -/
def ensureLockForCurrentChain (ctx : EvmCtx) (td : CrossChainTradeData)
    (isSourceChain : Bool) (s : State) : Option State :=
  if s.orderLocksByChain td.orderId ctx.chainid then some s
  else if isSourceChain then
    if td.party1Side = "ask" then
      match usub (s.escrowBalances td.party1 td.baseAsset)
          (s.lockedBalances td.party1 td.baseAsset) with
      | none => none
      | some available =>
        if available ≥ td.quantity then
          match uadd (s.lockedBalances td.party1 td.baseAsset) td.quantity with
          | some v =>
              some { s with
                lockedBalances := upd2 s.lockedBalances td.party1 td.baseAsset v
                orderLocksByChain := upd2 s.orderLocksByChain td.orderId ctx.chainid true }
          | none => none
        else none
    else none
  else
    if td.party2Side = "bid" then
      match umul td.quantity td.price with
      | none => none
      | some m =>
        match usub (s.escrowBalances td.party2 td.quoteAsset)
            (s.lockedBalances td.party2 td.quoteAsset) with
        | none => none
        | some available =>
          if available ≥ m / 10 ^ 18 then
            match uadd (s.lockedBalances td.party2 td.quoteAsset) (m / 10 ^ 18) with
            | some v =>
                some { s with
                  lockedBalances := upd2 s.lockedBalances td.party2 td.quoteAsset v
                  orderLocksByChain := upd2 s.orderLocksByChain td.orderId ctx.chainid true }
            | none => none
          else none
    else none

/-- `_settleSourceChain`: party1 must be the ask side; debits the base
amount from party1's locked and total escrow and transfers it to
party2's receive wallet. -/
def settleSourceChain (_ctx : EvmCtx) (td : CrossChainTradeData)
    (baseAmount : Nat) (xferOk : Bool) (s : State) :
    Option (State × Transfer) :=
  if td.party1Side = "ask" then
    if s.lockedBalances td.party1 td.baseAsset ≥ baseAmount then
      match usub (s.lockedBalances td.party1 td.baseAsset) baseAmount,
          usub (s.escrowBalances td.party1 td.baseAsset) baseAmount with
      | some l, some e =>
          if xferOk then
            some ({ s with
                lockedBalances := upd2 s.lockedBalances td.party1 td.baseAsset l
                escrowBalances := upd2 s.escrowBalances td.party1 td.baseAsset e },
              ⟨td.baseAsset, td.party1, td.party2ReceiveWallet, baseAmount⟩)
          else none
      | _, _ => none
    else none
  else none

/-- `_settleDestinationChain`: party2 must be the bid side; debits the
quote amount from party2's locked and total escrow and transfers it to
party1's receive wallet. -/
def settleDestinationChain (_ctx : EvmCtx) (td : CrossChainTradeData)
    (quoteAmount : Nat) (xferOk : Bool) (s : State) :
    Option (State × Transfer) :=
  if td.party2Side = "bid" then
    if s.lockedBalances td.party2 td.quoteAsset ≥ quoteAmount then
      match usub (s.lockedBalances td.party2 td.quoteAsset) quoteAmount,
          usub (s.escrowBalances td.party2 td.quoteAsset) quoteAmount with
      | some l, some e =>
          if xferOk then
            some ({ s with
                lockedBalances := upd2 s.lockedBalances td.party2 td.quoteAsset l
                escrowBalances := upd2 s.escrowBalances td.party2 td.quoteAsset e },
              ⟨td.quoteAsset, td.party2, td.party1ReceiveWallet, quoteAmount⟩)
          else none
      | _, _ => none
    else none
  else none

/-- `settleCrossChainTrade(tradeData, isSourceChain)` (onlyOwner):
first ensures the lock for this chain, then rejects replays per chain,
checks the chain id against the claimed leg, validates receive wallets
and sides, marks `settlementByChain`, settles the matching leg and
advances the corresponding nonce.  Returns the transfers performed. -/
def settleCrossChainTrade (ctx : EvmCtx) (td : CrossChainTradeData)
    (isSourceChain : Bool) (xferOk : Bool) (s : State) :
    Option (State × List Transfer) :=
  if ctx.sender = s.owner then
    match ensureLockForCurrentChain ctx td isSourceChain s with
    | none => none
    | some s1 =>
      if s1.settlementByChain td.orderId ctx.chainid then none
      else if (if isSourceChain then ctx.chainid = td.sourceChainId
               else ctx.chainid = td.destinationChainId) then
        if td.party1ReceiveWallet ≠ 0 then
          if td.party2ReceiveWallet ≠ 0 then
            if validSides td then
              match umul td.quantity td.price with
              | none => none
              | some m =>
                if isSourceChain then
                  match settleSourceChain ctx td td.quantity xferOk
                      { s1 with settlementByChain := upd2 s1.settlementByChain td.orderId ctx.chainid true } with
                  | none => none
                  | some (s3, tr) =>
                    match uadd td.nonce1 1 with
                    | some n =>
                        some ({ s3 with
                          settlementStatuses := upd1 s3.settlementStatuses td.orderId
                            ({ s3.settlementStatuses td.orderId with
                               sourceChainSettled := true
                               sourceChainTimestamp := ctx.timestamp })
                          nonces := upd2 s3.nonces td.party1 td.baseAsset n }, [tr])
                    | none => none
                else
                  match settleDestinationChain ctx td (m / 10 ^ 18) xferOk
                      { s1 with settlementByChain := upd2 s1.settlementByChain td.orderId ctx.chainid true } with
                  | none => none
                  | some (s3, tr) =>
                    match uadd td.nonce2 1 with
                    | some n =>
                        some ({ s3 with
                          settlementStatuses := upd1 s3.settlementStatuses td.orderId
                            ({ s3.settlementStatuses td.orderId with
                               destinationChainSettled := true
                               destinationChainTimestamp := ctx.timestamp })
                          nonces := upd2 s3.nonces td.party2 td.quoteAsset n }, [tr])
                    | none => none
            else none
          else none
        else none
      else none
  else none

/-- The tuple hashed into the trade hash of `settleSameChainTrade`. -/
def tradeKeyOf (td : CrossChainTradeData) : TradeKey :=
  ⟨td.orderId, td.party1, td.party2, td.baseAsset, td.quoteAsset,
    td.price, td.quantity, td.sourceChainId, td.destinationChainId, td.timestamp⟩

/-- `_lockRequired(user, token, amount)`: requires enough available
escrow and raises the locked balance (no order-lock flag is set). -/
def lockRequired (user token amount : Nat) (s : State) : Option State :=
  match usub (s.escrowBalances user token) (s.lockedBalances user token) with
  | none => none
  | some available =>
    if available ≥ amount then
      match uadd (s.lockedBalances user token) amount with
      | some v => some { s with lockedBalances := upd2 s.lockedBalances user token v }
      | none => none
    else none

/-- `_transferToken(token, fromUser, to, amount, isBase)`: debits the
sender's locked and total escrow and transfers the tokens out.  The
`isBase` flag only feeds the emitted event and is ignored here. -/
def transferToken (token fromUser toUser amount : Nat) (_isBase : Bool)
    (xferOk : Bool) (s : State) : Option (State × Transfer) :=
  if s.lockedBalances fromUser token ≥ amount then
    match usub (s.lockedBalances fromUser token) amount,
        usub (s.escrowBalances fromUser token) amount with
    | some l, some e =>
        if xferOk then
          some ({ s with
              lockedBalances := upd2 s.lockedBalances fromUser token l
              escrowBalances := upd2 s.escrowBalances fromUser token e },
            ⟨token, fromUser, toUser, amount⟩)
        else none
    | _, _ => none
  else none

/-- The lock-and-transfer block of `settleSameChainTrade`: locks both
legs with `_lockRequired` and performs both `_transferToken` calls, in
the order determined by party1's side. -/
def sameChainLegs (td : CrossChainTradeData) (quoteAmount : Nat)
    (xferOk1 xferOk2 : Bool) (s1 : State) :
    Option (State × Transfer × Transfer) :=
  if td.party1Side = "ask" then
    match lockRequired td.party1 td.baseAsset td.quantity s1 with
    | none => none
    | some sa =>
      match lockRequired td.party2 td.quoteAsset quoteAmount sa with
      | none => none
      | some sb =>
        match transferToken td.baseAsset td.party1
            td.party2ReceiveWallet td.quantity true xferOk1 sb with
        | none => none
        | some (sc, t1) =>
          match transferToken td.quoteAsset td.party2
              td.party1ReceiveWallet quoteAmount false xferOk2 sc with
          | none => none
          | some (sd, t2) => some (sd, t1, t2)
  else
    match lockRequired td.party2 td.baseAsset td.quantity s1 with
    | none => none
    | some sa =>
      match lockRequired td.party1 td.quoteAsset quoteAmount sa with
      | none => none
      | some sb =>
        match transferToken td.baseAsset td.party2
            td.party1ReceiveWallet td.quantity true xferOk1 sb with
        | none => none
        | some (sc, t1) =>
          match transferToken td.quoteAsset td.party1
              td.party2ReceiveWallet quoteAmount false xferOk2 sc with
          | none => none
          | some (sd, t2) => some (sd, t1, t2)

/-- `settleSameChainTrade(tradeData)` (onlyOwner): both legs on one
chain.  Validates chain, wallets and sides, guards replay via
`settledCrossChainOrders` and the trade hash, locks both legs if
needed, performs both transfers, marks everything settled and advances
both nonces (the source advances party2's nonce on the BASE asset). -/
def settleSameChainTrade (ctx : EvmCtx) (td : CrossChainTradeData)
    (xferOk1 xferOk2 : Bool) (s : State) : Option (State × List Transfer) :=
  if ctx.sender = s.owner then
    if td.sourceChainId = td.destinationChainId then
      if ctx.chainid = td.sourceChainId then
        if td.party1ReceiveWallet ≠ 0 then
          if td.party2ReceiveWallet ≠ 0 then
            if validSides td then
              if s.settledCrossChainOrders td.orderId then none
              else if s.executedTrades (tradeKeyOf td) then none
              else
                match umul td.quantity td.price with
                | none => none
                | some m =>
                  match sameChainLegs td (m / 10 ^ 18) xferOk1 xferOk2
                      { s with executedTrades := upd1 s.executedTrades (tradeKeyOf td) true } with
                  | none => none
                  | some (sd, t1, t2) =>
                    match uadd td.nonce1 1 with
                    | none => none
                    | some n1 =>
                      match uadd td.nonce2 1 with
                      | none => none
                      | some n2 =>
                        some ({ sd with
                          settledCrossChainOrders :=
                            upd1 sd.settledCrossChainOrders td.orderId true
                          settlementByChain :=
                            upd2 sd.settlementByChain td.orderId ctx.chainid true
                          settlementStatuses := upd1 sd.settlementStatuses td.orderId
                            ({ sd.settlementStatuses td.orderId with
                               sourceChainSettled := true
                               destinationChainSettled := true
                               sourceChainTimestamp := ctx.timestamp
                               destinationChainTimestamp := ctx.timestamp })
                          nonces := upd2 (upd2 sd.nonces td.party1 td.baseAsset n1)
                            td.party2 td.baseAsset n2 }, [t1, t2])
            else none
          else none
        else none
      else none
    else none
  else none

/-- `checkEscrowBalance(user, token)`: returns
`(total, available, locked)`; the `available = total - locked`
subtraction is itself checked arithmetic. -/
def checkEscrowBalance (s : State) (user token : Addr) :
    Option (Nat × Nat × Nat) :=
  match usub (s.escrowBalances user token) (s.lockedBalances user token) with
  | some available =>
      some (s.escrowBalances user token, available, s.lockedBalances user token)
  | none => none

/-- `reportSettlementFailure(orderId, failedChainId, isSourceChain,
reason)` (onlyOwner): always emits `SettlementFailed` (not modelled);
when the opposite leg is settled and the reported leg is not, emits
`AsymmetricSettlementDetected`, whose `settledChainId` argument
compares `failedChainId` against a stored *timestamp*.  Storage is
never modified.  Returns the emitted asymmetric events. -/
def reportSettlementFailure (ctx : EvmCtx) (orderId failedChainId : Nat)
    (isSourceChain : Bool) (_reason : String) (s : State) :
    Option (State × List AsymmetricEvent) :=
  if ctx.sender = s.owner then
    if isSourceChain ∧ (s.settlementStatuses orderId).destinationChainSettled = true ∧
        (s.settlementStatuses orderId).sourceChainSettled = false then
      some (s, [⟨orderId,
        if failedChainId = (s.settlementStatuses orderId).sourceChainTimestamp
        then failedChainId else ctx.chainid,
        failedChainId, ctx.timestamp⟩])
    else if ¬ isSourceChain ∧ (s.settlementStatuses orderId).sourceChainSettled = true ∧
        (s.settlementStatuses orderId).destinationChainSettled = false then
      some (s, [⟨orderId,
        if failedChainId = (s.settlementStatuses orderId).destinationChainTimestamp
        then failedChainId else ctx.chainid,
        failedChainId, ctx.timestamp⟩])
    else some (s, [])
  else none

/-- `emergencyRefundAsymmetricSettlement(orderId, tradeData, proof)`
(onlyOwner): requires not already refunded, an asymmetric settlement
(exactly one leg settled) and a settlement executed on this chain; when
the executing chain is the supplied trade data's source chain and the
source leg is settled it pulls the base amount back from party2's
receive wallet to party1; in the mirrored destination case it pulls the
quote amount back from party1's receive wallet to party2; otherwise it
performs no transfer.  In every successful case it marks the record
refunded. -/
def emergencyRefundAsymmetricSettlement (ctx : EvmCtx) (orderId : Nat)
    (td : CrossChainTradeData) (xferOk : Bool) (s : State) :
    Option (State × List Transfer) :=
  if ctx.sender = s.owner then
    if (s.settlementStatuses orderId).refunded then none
    else if (s.settlementStatuses orderId).sourceChainSettled ≠
        (s.settlementStatuses orderId).destinationChainSettled then
      if s.settlementByChain orderId ctx.chainid then
        if ctx.chainid = td.sourceChainId ∧
            (s.settlementStatuses orderId).sourceChainSettled = true then
          if td.party1Side = "ask" then
            if xferOk then
              some ({ s with
                  settlementStatuses := upd1 s.settlementStatuses orderId
                    ({ s.settlementStatuses orderId with refunded := true }) },
                [⟨td.baseAsset, td.party2ReceiveWallet, td.party1, td.quantity⟩])
            else none
          else none
        else if ¬ ctx.chainid = td.sourceChainId ∧
            (s.settlementStatuses orderId).destinationChainSettled = true then
          match umul td.quantity td.price with
          | none => none
          | some m =>
            if td.party2Side = "bid" then
              if xferOk then
                some ({ s with
                    settlementStatuses := upd1 s.settlementStatuses orderId
                      ({ s.settlementStatuses orderId with refunded := true }) },
                  [⟨td.quoteAsset, td.party1ReceiveWallet, td.party2, m / 10 ^ 18⟩])
              else none
            else none
        else
          some ({ s with
              settlementStatuses := upd1 s.settlementStatuses orderId
                ({ s.settlementStatuses orderId with refunded := true }) }, [])
      else none
    else none
  else none

/-- One invocation of a state-changing entry point of the contract,
with its full call context and the environment's choices for the
outcomes of external ERC-20 calls. -/
inductive Op where
  | deposit (ctx : EvmCtx) (xferOk : Bool) (token amount : Nat)
  | withdraw (ctx : EvmCtx) (xferOk : Bool) (token amount : Nat)
  | lock (ctx : EvmCtx) (user token amount orderId : Nat)
  | settleCross (ctx : EvmCtx) (td : CrossChainTradeData) (isSourceChain xferOk : Bool)
  | settleSame (ctx : EvmCtx) (td : CrossChainTradeData) (xferOk1 xferOk2 : Bool)
  | refund (ctx : EvmCtx) (orderId : Nat) (td : CrossChainTradeData) (xferOk : Bool)
  | reportFailure (ctx : EvmCtx) (orderId failedChainId : Nat)
      (isSourceChain : Bool) (reason : String)

/-- The state transition attempted by an operation (`none` = revert). -/
def stepOp (op : Op) (s : State) : Option State :=
  match op with
  | .deposit ctx xferOk token amount => depositToEscrow ctx xferOk token amount s
  | .withdraw ctx xferOk token amount => withdrawFromEscrow ctx xferOk token amount s
  | .lock ctx user token amount orderId => lockEscrowForOrder ctx user token amount orderId s
  | .settleCross ctx td iso xferOk =>
      (settleCrossChainTrade ctx td iso xferOk s).map Prod.fst
  | .settleSame ctx td xf1 xf2 =>
      (settleSameChainTrade ctx td xf1 xf2 s).map Prod.fst
  | .refund ctx orderId td xferOk =>
      (emergencyRefundAsymmetricSettlement ctx orderId td xferOk s).map Prod.fst
  | .reportFailure ctx orderId failedChainId iso reason =>
      (reportSettlementFailure ctx orderId failedChainId iso reason s).map Prod.fst

/-- EVM transaction semantics: a reverting call leaves the state
unchanged. -/
def applyOp (op : Op) (s : State) : State :=
  (stepOp op s).getD s

/-- Run a sequence of operations from a starting state. -/
def run (ops : List Op) (s : State) : State :=
  ops.foldl (fun t op => applyOp op t) s

/-! ### Basic lemmas about checked arithmetic and map updates -/

theorem usub_some {a b c : Nat} (h : usub a b = some c) : b ≤ a ∧ c = a - b := by
  unfold usub at h
  split at h
  · exact ⟨by assumption, (Option.some.injEq _ _ ▸ h).symm⟩
  · exact absurd h (by simp)

theorem uadd_some {a b c : Nat} (h : uadd a b = some c) : c = a + b := by
  unfold uadd at h
  split at h
  · exact (Option.some.injEq _ _ ▸ h).symm
  · exact absurd h (by simp)

theorem umul_some {a b c : Nat} (h : umul a b = some c) : c = a * b := by
  unfold umul at h
  split at h
  · exact (Option.some.injEq _ _ ▸ h).symm
  · exact absurd h (by simp)

@[simp] theorem upd2_apply {α : Type} (m : Nat → Nat → α) (a b : Nat) (v : α)
    (x y : Nat) : upd2 m a b v x y = if x = a ∧ y = b then v else m x y := rfl

@[simp] theorem upd1_apply {κ α : Type} [DecidableEq κ] (m : κ → α) (k : κ)
    (v : α) (x : κ) : upd1 m k v x = if x = k then v else m x := rfl

/-! ### The escrow accounting invariant -/

/-- For every `(user, token)`, the locked balance never exceeds the
total escrow balance (so `available = total - locked` is a genuine
natural number and `total = available + locked`). -/
def EscrowInv (s : State) : Prop :=
  ∀ u t, s.lockedBalances u t ≤ s.escrowBalances u t

theorem escrowInv_initState (deployer : Addr) : EscrowInv (initState deployer) :=
  fun _ _ => Nat.le_refl 0

/-- The invariant only depends on the two balance mappings. -/
theorem escrowInv_congr {s s' : State}
    (he : s'.escrowBalances = s.escrowBalances)
    (hl : s'.lockedBalances = s.lockedBalances)
    (hInv : EscrowInv s) : EscrowInv s' := by
  intro u t
  rw [he, hl]
  exact hInv u t

theorem escrowInv_upd_escrow_of_le {s : State} (hInv : EscrowInv s)
    (u t v : Nat) (hv : s.lockedBalances u t ≤ v) :
    EscrowInv { s with escrowBalances := upd2 s.escrowBalances u t v } := by
  intro x y
  simp only [upd2]
  split_ifs with hc
  · obtain ⟨rfl, rfl⟩ := hc
    exact hv
  · exact hInv x y

theorem escrowInv_upd_locked_of_le {s : State} (hInv : EscrowInv s)
    (u t v : Nat) (hv : v ≤ s.escrowBalances u t) :
    EscrowInv { s with lockedBalances := upd2 s.lockedBalances u t v } := by
  intro x y
  simp only [upd2]
  split_ifs with hc
  · obtain ⟨rfl, rfl⟩ := hc
    exact hv
  · exact hInv x y

theorem escrowInv_upd_both_sub {s : State} (hInv : EscrowInv s) (u t a : Nat)
    (ha : a ≤ s.lockedBalances u t) :
    EscrowInv { s with
      lockedBalances := upd2 s.lockedBalances u t (s.lockedBalances u t - a)
      escrowBalances := upd2 s.escrowBalances u t (s.escrowBalances u t - a) } := by
  intro x y
  have h1 := hInv x y
  have h2 := hInv u t
  simp only [upd2]
  split_ifs with hc
  · obtain ⟨rfl, rfl⟩ := hc
    omega
  · exact h1

/-! ### Characterizations of the helper functions -/

theorem lockRequired_some {user token amount : Nat} {s s' : State}
    (h : lockRequired user token amount s = some s') :
    s.lockedBalances user token ≤ s.escrowBalances user token ∧
    amount ≤ s.escrowBalances user token - s.lockedBalances user token ∧
    s' = { s with lockedBalances := upd2 s.lockedBalances user token (s.lockedBalances user token + amount) } := by
  unfold lockRequired at h
  split at h
  · exact absurd h (by simp)
  · next available hu =>
    obtain ⟨hle, hav⟩ := usub_some hu
    split at h
    · split at h
      · next v ha =>
        have hv := uadd_some ha
        cases h
        subst hv hav
        exact ⟨hle, by omega, rfl⟩
      · exact absurd h (by simp)
    · exact absurd h (by simp)

theorem transferToken_some {token fromUser toUser amount : Nat} {isBase xferOk : Bool}
    {s : State} {p : State × Transfer}
    (h : transferToken token fromUser toUser amount isBase xferOk s = some p) :
    amount ≤ s.lockedBalances fromUser token ∧
    amount ≤ s.escrowBalances fromUser token ∧
    xferOk = true ∧
    p.2 = ⟨token, fromUser, toUser, amount⟩ ∧
    p.1 = { s with
      lockedBalances := upd2 s.lockedBalances fromUser token
        (s.lockedBalances fromUser token - amount)
      escrowBalances := upd2 s.escrowBalances fromUser token
        (s.escrowBalances fromUser token - amount) } := by
  unfold transferToken at h
  split at h
  · split at h
    · next l e hl he =>
      obtain ⟨hl1, hl2⟩ := usub_some hl
      obtain ⟨he1, he2⟩ := usub_some he
      split at h
      · cases h
        subst hl2 he2
        exact ⟨hl1, he1, by assumption, rfl, rfl⟩
      · exact absurd h (by simp)
    · exact absurd h (by simp)
  · exact absurd h (by simp)

theorem settleSourceChain_some {ctx : EvmCtx} {td : CrossChainTradeData}
    {baseAmount : Nat} {xferOk : Bool} {s : State} {p : State × Transfer}
    (h : settleSourceChain ctx td baseAmount xferOk s = some p) :
    td.party1Side = "ask" ∧
    baseAmount ≤ s.lockedBalances td.party1 td.baseAsset ∧
    baseAmount ≤ s.escrowBalances td.party1 td.baseAsset ∧
    xferOk = true ∧
    p.2 = ⟨td.baseAsset, td.party1, td.party2ReceiveWallet, baseAmount⟩ ∧
    p.1 = { s with
      lockedBalances := upd2 s.lockedBalances td.party1 td.baseAsset
        (s.lockedBalances td.party1 td.baseAsset - baseAmount)
      escrowBalances := upd2 s.escrowBalances td.party1 td.baseAsset
        (s.escrowBalances td.party1 td.baseAsset - baseAmount) } := by
  unfold settleSourceChain at h
  split at h
  · split at h
    · split at h
      · next l e hl he =>
        obtain ⟨hl1, hl2⟩ := usub_some hl
        obtain ⟨he1, he2⟩ := usub_some he
        split at h
        · cases h
          subst hl2 he2
          exact ⟨by assumption, hl1, he1, by assumption, rfl, rfl⟩
        · exact absurd h (by simp)
      · exact absurd h (by simp)
    · exact absurd h (by simp)
  · exact absurd h (by simp)

theorem settleDestinationChain_some {ctx : EvmCtx} {td : CrossChainTradeData}
    {quoteAmount : Nat} {xferOk : Bool} {s : State} {p : State × Transfer}
    (h : settleDestinationChain ctx td quoteAmount xferOk s = some p) :
    td.party2Side = "bid" ∧
    quoteAmount ≤ s.lockedBalances td.party2 td.quoteAsset ∧
    quoteAmount ≤ s.escrowBalances td.party2 td.quoteAsset ∧
    xferOk = true ∧
    p.2 = ⟨td.quoteAsset, td.party2, td.party1ReceiveWallet, quoteAmount⟩ ∧
    p.1 = { s with
      lockedBalances := upd2 s.lockedBalances td.party2 td.quoteAsset
        (s.lockedBalances td.party2 td.quoteAsset - quoteAmount)
      escrowBalances := upd2 s.escrowBalances td.party2 td.quoteAsset
        (s.escrowBalances td.party2 td.quoteAsset - quoteAmount) } := by
  unfold settleDestinationChain at h
  split at h
  · split at h
    · split at h
      · next l e hl he =>
        obtain ⟨hl1, hl2⟩ := usub_some hl
        obtain ⟨he1, he2⟩ := usub_some he
        split at h
        · cases h
          subst hl2 he2
          exact ⟨by assumption, hl1, he1, by assumption, rfl, rfl⟩
        · exact absurd h (by simp)
      · exact absurd h (by simp)
    · exact absurd h (by simp)
  · exact absurd h (by simp)

/-- A successful `_ensureLockForCurrentChain` always leaves the order
locked on the current chain and only touches the locked balances and
the lock flags. -/
theorem ensureLockForCurrentChain_some {ctx : EvmCtx} {td : CrossChainTradeData}
    {iso : Bool} {s s1 : State}
    (h : ensureLockForCurrentChain ctx td iso s = some s1) :
    s1.orderLocksByChain td.orderId ctx.chainid = true ∧
    s1.owner = s.owner ∧
    s1.settlementByChain = s.settlementByChain ∧
    s1.escrowBalances = s.escrowBalances ∧
    s1.settlementStatuses = s.settlementStatuses ∧
    s1.nonces = s.nonces ∧
    s1.settledCrossChainOrders = s.settledCrossChainOrders ∧
    s1.executedTrades = s.executedTrades := by
  unfold ensureLockForCurrentChain at h
  split at h
  · cases h
    exact ⟨by assumption, rfl, rfl, rfl, rfl, rfl, rfl, rfl⟩
  · split at h
    · split at h
      · split at h
        · exact absurd h (by simp)
        · split at h
          · split at h
            · cases h
              exact ⟨by simp, rfl, rfl, rfl, rfl, rfl, rfl, rfl⟩
            · exact absurd h (by simp)
          · exact absurd h (by simp)
      · exact absurd h (by simp)
    · split at h
      · split at h
        · exact absurd h (by simp)
        · split at h
          · exact absurd h (by simp)
          · split at h
            · split at h
              · cases h
                exact ⟨by simp, rfl, rfl, rfl, rfl, rfl, rfl, rfl⟩
              · exact absurd h (by simp)
            · exact absurd h (by simp)
      · exact absurd h (by simp)

/-- Exact description of `_ensureLockForCurrentChain` on the source
leg: either the lock already exists and nothing changes, or the base
amount is lazily locked from party1's available escrow. -/
theorem ensureLockForCurrentChain_source {ctx : EvmCtx} {td : CrossChainTradeData}
    {s s1 : State}
    (h : ensureLockForCurrentChain ctx td true s = some s1) :
    (s.orderLocksByChain td.orderId ctx.chainid = true ∧ s1 = s) ∨
    (s.orderLocksByChain td.orderId ctx.chainid = false ∧
     td.party1Side = "ask" ∧
     s.lockedBalances td.party1 td.baseAsset ≤ s.escrowBalances td.party1 td.baseAsset ∧
     td.quantity ≤ s.escrowBalances td.party1 td.baseAsset - s.lockedBalances td.party1 td.baseAsset ∧
     s1 = { s with
       lockedBalances := upd2 s.lockedBalances td.party1 td.baseAsset (s.lockedBalances td.party1 td.baseAsset + td.quantity)
       orderLocksByChain := upd2 s.orderLocksByChain td.orderId ctx.chainid true }) := by
  unfold ensureLockForCurrentChain at h
  split at h
  · cases h
    exact Or.inl ⟨by assumption, rfl⟩
  · rw [if_pos rfl] at h
    split at h
    · split at h
      · exact absurd h (by simp)
      · next available hu =>
        obtain ⟨hle, hav⟩ := usub_some hu
        split at h
        · split at h
          · next v ha =>
            have hv := uadd_some ha
            cases h
            subst hv hav
            exact Or.inr ⟨by simp_all, by assumption, hle, by omega, rfl⟩
          · exact absurd h (by simp)
        · exact absurd h (by simp)
    · exact absurd h (by simp)

theorem escrowInv_ensureLock {ctx : EvmCtx} {td : CrossChainTradeData}
    {iso : Bool} {s s1 : State} (hInv : EscrowInv s)
    (h : ensureLockForCurrentChain ctx td iso s = some s1) : EscrowInv s1 := by
  unfold ensureLockForCurrentChain at h
  split at h
  · cases h
    exact hInv
  · split at h
    · split at h
      · split at h
        · exact absurd h (by simp)
        · next available hu =>
          obtain ⟨hle, hav⟩ := usub_some hu
          split at h
          · split at h
            · next v ha =>
              have hv := uadd_some ha
              cases h
              exact escrowInv_congr rfl rfl
                (escrowInv_upd_locked_of_le hInv _ _ _ (by omega))
            · exact absurd h (by simp)
          · exact absurd h (by simp)
      · exact absurd h (by simp)
    · split at h
      · split at h
        · exact absurd h (by simp)
        · split at h
          · exact absurd h (by simp)
          · next available hu =>
            obtain ⟨hle, hav⟩ := usub_some hu
            split at h
            · split at h
              · next v ha =>
                have hv := uadd_some ha
                cases h
                exact escrowInv_congr rfl rfl
                  (escrowInv_upd_locked_of_le hInv _ _ _ (by omega))
              · exact absurd h (by simp)
            · exact absurd h (by simp)
      · exact absurd h (by simp)

theorem escrowInv_settleSourceChain {ctx : EvmCtx} {td : CrossChainTradeData}
    {a : Nat} {xf : Bool} {s : State} {p : State × Transfer}
    (hInv : EscrowInv s) (h : settleSourceChain ctx td a xf s = some p) :
    EscrowInv p.1 := by
  obtain ⟨-, hl1, -, -, -, hs⟩ := settleSourceChain_some h
  rw [hs]
  exact escrowInv_upd_both_sub hInv _ _ _ hl1

theorem escrowInv_settleDestinationChain {ctx : EvmCtx} {td : CrossChainTradeData}
    {a : Nat} {xf : Bool} {s : State} {p : State × Transfer}
    (hInv : EscrowInv s) (h : settleDestinationChain ctx td a xf s = some p) :
    EscrowInv p.1 := by
  obtain ⟨-, hl1, -, -, -, hs⟩ := settleDestinationChain_some h
  rw [hs]
  exact escrowInv_upd_both_sub hInv _ _ _ hl1

theorem escrowInv_lockRequired {user token amount : Nat} {s s' : State}
    (hInv : EscrowInv s) (h : lockRequired user token amount s = some s') :
    EscrowInv s' := by
  obtain ⟨hle, ham, hs⟩ := lockRequired_some h
  rw [hs]
  exact escrowInv_upd_locked_of_le hInv _ _ _ (by omega)

theorem escrowInv_transferToken {token fromUser toUser amount : Nat}
    {isBase xferOk : Bool} {s : State} {p : State × Transfer}
    (hInv : EscrowInv s)
    (h : transferToken token fromUser toUser amount isBase xferOk s = some p) :
    EscrowInv p.1 := by
  obtain ⟨hl1, -, -, -, hs⟩ := transferToken_some h
  rw [hs]
  exact escrowInv_upd_both_sub hInv _ _ _ hl1

theorem escrowInv_depositToEscrow {ctx : EvmCtx} {xf : Bool} {token amount : Nat}
    {s s' : State} (hInv : EscrowInv s)
    (h : depositToEscrow ctx xf token amount s = some s') : EscrowInv s' := by
  unfold depositToEscrow at h
  split at h
  · split at h
    · split at h
      · next v hv =>
        have hv' := uadd_some hv
        have hle := hInv ctx.sender token
        cases h
        exact escrowInv_upd_escrow_of_le hInv _ _ _ (by omega)
      · exact absurd h (by simp)
    · exact absurd h (by simp)
  · exact absurd h (by simp)

theorem escrowInv_withdrawFromEscrow {ctx : EvmCtx} {xf : Bool} {token amount : Nat}
    {s s' : State} (hInv : EscrowInv s)
    (h : withdrawFromEscrow ctx xf token amount s = some s') : EscrowInv s' := by
  unfold withdrawFromEscrow at h
  split at h
  · exact absurd h (by simp)
  · next availableBalance hu =>
    obtain ⟨hle, hav⟩ := usub_some hu
    split at h
    · split at h
      · split at h
        · next v hv =>
          obtain ⟨hva, hvv⟩ := usub_some hv
          split at h
          · cases h
            subst hvv
            exact escrowInv_upd_escrow_of_le hInv _ _ _ (by omega)
          · exact absurd h (by simp)
        · exact absurd h (by simp)
      · exact absurd h (by simp)
    · exact absurd h (by simp)

theorem escrowInv_lockEscrowForOrder {ctx : EvmCtx} {user token amount orderId : Nat}
    {s s' : State} (hInv : EscrowInv s)
    (h : lockEscrowForOrder ctx user token amount orderId s = some s') :
    EscrowInv s' := by
  unfold lockEscrowForOrder at h
  split at h
  · split at h
    · exact absurd h (by simp)
    · split at h
      · exact absurd h (by simp)
      · next availableBalance hu =>
        obtain ⟨hle, hav⟩ := usub_some hu
        split at h
        · split at h
          · next v hv =>
            have hv' := uadd_some hv
            cases h
            exact escrowInv_congr rfl rfl
              (escrowInv_upd_locked_of_le hInv _ _ _ (by omega))
          · exact absurd h (by simp)
        · exact absurd h (by simp)
  · exact absurd h (by simp)

theorem escrowInv_settleCrossChainTrade {ctx : EvmCtx} {td : CrossChainTradeData}
    {iso xf : Bool} {s : State} {p : State × List Transfer} (hInv : EscrowInv s)
    (h : settleCrossChainTrade ctx td iso xf s = some p) : EscrowInv p.1 := by
  unfold settleCrossChainTrade at h
  split at h
  · split at h
    · exact absurd h (by simp)
    · next s1 hE =>
      have hInv1 : EscrowInv s1 := escrowInv_ensureLock hInv hE
      split at h
      · exact absurd h (by simp)
      · split at h
        · split at h
          · split at h
            · split at h
              · split at h
                · split at h
                  · exact absurd h (by simp)
                  · next m hm =>
                    split at h
                    · exact absurd h (by simp)
                    · next s3 tr hS =>
                      split at h
                      · next n hn =>
                        cases h
                        refine escrowInv_congr rfl rfl
                          (escrowInv_settleSourceChain ?_ hS)
                        exact escrowInv_congr rfl rfl hInv1
                      · exact absurd h (by simp)
                · exact absurd h (by simp)
              · exact absurd h (by simp)
            · exact absurd h (by simp)
          · exact absurd h (by simp)
        · split at h
          · split at h
            · split at h
              · split at h
                · split at h
                  · exact absurd h (by simp)
                  · next m hm =>
                    split at h
                    · exact absurd h (by simp)
                    · next s3 tr hS =>
                      split at h
                      · next n hn =>
                        cases h
                        refine escrowInv_congr rfl rfl
                          (escrowInv_settleDestinationChain ?_ hS)
                        exact escrowInv_congr rfl rfl hInv1
                      · exact absurd h (by simp)
                · exact absurd h (by simp)
              · exact absurd h (by simp)
            · exact absurd h (by simp)
          · exact absurd h (by simp)
  · exact absurd h (by simp)

theorem escrowInv_sameChainLegs {td : CrossChainTradeData} {qa : Nat}
    {xf1 xf2 : Bool} {s1 : State} {p : State × Transfer × Transfer}
    (hInv : EscrowInv s1) (h : sameChainLegs td qa xf1 xf2 s1 = some p) :
    EscrowInv p.1 := by
  unfold sameChainLegs at h
  split at h
  · split at h
    · exact absurd h (by simp)
    · next sa hA =>
      split at h
      · exact absurd h (by simp)
      · next sb hB =>
        split at h
        · exact absurd h (by simp)
        · next sc t1 hC =>
          split at h
          · exact absurd h (by simp)
          · next sd t2 hD =>
            cases h
            exact escrowInv_transferToken
              (escrowInv_transferToken
                (escrowInv_lockRequired (escrowInv_lockRequired hInv hA) hB) hC) hD
  · split at h
    · exact absurd h (by simp)
    · next sa hA =>
      split at h
      · exact absurd h (by simp)
      · next sb hB =>
        split at h
        · exact absurd h (by simp)
        · next sc t1 hC =>
          split at h
          · exact absurd h (by simp)
          · next sd t2 hD =>
            cases h
            exact escrowInv_transferToken
              (escrowInv_transferToken
                (escrowInv_lockRequired (escrowInv_lockRequired hInv hA) hB) hC) hD

theorem escrowInv_settleSameChainTrade {ctx : EvmCtx} {td : CrossChainTradeData}
    {xf1 xf2 : Bool} {s : State} {p : State × List Transfer} (hInv : EscrowInv s)
    (h : settleSameChainTrade ctx td xf1 xf2 s = some p) : EscrowInv p.1 := by
  unfold settleSameChainTrade at h
  split at h
  · split at h
    · split at h
      · split at h
        · split at h
          · split at h
            · split at h
              · exact absurd h (by simp)
              · split at h
                · exact absurd h (by simp)
                · split at h
                  · exact absurd h (by simp)
                  · next m hm =>
                    split at h
                    · exact absurd h (by simp)
                    · next sd t1 t2 hL =>
                      split at h
                      · exact absurd h (by simp)
                      · next n1 hn1 =>
                        split at h
                        · exact absurd h (by simp)
                        · next n2 hn2 =>
                          cases h
                          refine escrowInv_congr rfl rfl
                            (escrowInv_sameChainLegs ?_ hL)
                          exact escrowInv_congr rfl rfl hInv
            · exact absurd h (by simp)
          · exact absurd h (by simp)
        · exact absurd h (by simp)
      · exact absurd h (by simp)
    · exact absurd h (by simp)
  · exact absurd h (by simp)

theorem escrowInv_emergencyRefund {ctx : EvmCtx} {orderId : Nat}
    {td : CrossChainTradeData} {xf : Bool} {s : State} {p : State × List Transfer}
    (hInv : EscrowInv s)
    (h : emergencyRefundAsymmetricSettlement ctx orderId td xf s = some p) :
    EscrowInv p.1 := by
  unfold emergencyRefundAsymmetricSettlement at h
  split at h
  · split at h
    · exact absurd h (by simp)
    · split at h
      · split at h
        · split at h
          · split at h
            · split at h
              · cases h
                exact escrowInv_congr rfl rfl hInv
              · exact absurd h (by simp)
            · exact absurd h (by simp)
          · split at h
            · split at h
              · exact absurd h (by simp)
              · next m hm =>
                split at h
                · split at h
                  · cases h
                    exact escrowInv_congr rfl rfl hInv
                  · exact absurd h (by simp)
                · exact absurd h (by simp)
            · cases h
              exact escrowInv_congr rfl rfl hInv
        · exact absurd h (by simp)
      · exact absurd h (by simp)
  · exact absurd h (by simp)

theorem escrowInv_reportSettlementFailure {ctx : EvmCtx}
    {orderId failedChainId : Nat} {iso : Bool} {reason : String} {s : State}
    {p : State × List AsymmetricEvent} (hInv : EscrowInv s)
    (h : reportSettlementFailure ctx orderId failedChainId iso reason s = some p) :
    EscrowInv p.1 := by
  unfold reportSettlementFailure at h
  split at h
  · split at h
    · cases h
      exact hInv
    · split at h
      · cases h
        exact hInv
      · cases h
        exact hInv
  · exact absurd h (by simp)

/-- Every contract operation preserves the escrow accounting invariant
(reverting operations leave the state unchanged). -/
theorem escrowInv_applyOp (op : Op) {s : State} (hInv : EscrowInv s) :
    EscrowInv (applyOp op s) := by
  cases op with
  | deposit ctx xf token amount =>
    simp only [applyOp, stepOp]
    cases h : depositToEscrow ctx xf token amount s with
    | none => exact hInv
    | some s' => exact escrowInv_depositToEscrow hInv h
  | withdraw ctx xf token amount =>
    simp only [applyOp, stepOp]
    cases h : withdrawFromEscrow ctx xf token amount s with
    | none => exact hInv
    | some s' => exact escrowInv_withdrawFromEscrow hInv h
  | lock ctx user token amount orderId =>
    simp only [applyOp, stepOp]
    cases h : lockEscrowForOrder ctx user token amount orderId s with
    | none => exact hInv
    | some s' => exact escrowInv_lockEscrowForOrder hInv h
  | settleCross ctx td iso xf =>
    simp only [applyOp, stepOp]
    cases h : settleCrossChainTrade ctx td iso xf s with
    | none => exact hInv
    | some p => exact escrowInv_settleCrossChainTrade hInv h
  | settleSame ctx td xf1 xf2 =>
    simp only [applyOp, stepOp]
    cases h : settleSameChainTrade ctx td xf1 xf2 s with
    | none => exact hInv
    | some p => exact escrowInv_settleSameChainTrade hInv h
  | refund ctx orderId td xf =>
    simp only [applyOp, stepOp]
    cases h : emergencyRefundAsymmetricSettlement ctx orderId td xf s with
    | none => exact hInv
    | some p => exact escrowInv_emergencyRefund hInv h
  | reportFailure ctx orderId failedChainId iso reason =>
    simp only [applyOp, stepOp]
    cases h : reportSettlementFailure ctx orderId failedChainId iso reason s with
    | none => exact hInv
    | some p => exact escrowInv_reportSettlementFailure hInv h

theorem escrowInv_run (ops : List Op) {s : State} (hInv : EscrowInv s) :
    EscrowInv (run ops s) := by
  induction ops generalizing s with
  | nil => exact hInv
  | cons op rest ih => exact ih (escrowInv_applyOp op hInv)

/-! ### Claim C1: escrow accounting invariant -/

/-- **C1.** Escrow accounting invariant: starting from the empty
ledger, after any sequence of `depositToEscrow`, `withdrawFromEscrow`,
`lockEscrowForOrder`, `settleCrossChainTrade`, `settleSameChainTrade`
and `emergencyRefundAsymmetricSettlement` operations (failure reports
included), `checkEscrowBalance` succeeds for every `(user, token)` and
returns `(total, available, locked)` with `available + locked = total`
and `locked ≤ total`; all three are naturals, hence non-negative. -/
theorem escrow_accounting_invariant (deployer : Addr) (ops : List Op)
    (user token : Addr) :
    ∃ total available locked,
      checkEscrowBalance (run ops (initState deployer)) user token =
        some (total, available, locked) ∧
      available + locked = total ∧ locked ≤ total := by
  have hInv : EscrowInv (run ops (initState deployer)) :=
    escrowInv_run ops (escrowInv_initState deployer)
  have hle := hInv user token
  refine ⟨(run ops (initState deployer)).escrowBalances user token,
    (run ops (initState deployer)).escrowBalances user token -
      (run ops (initState deployer)).lockedBalances user token,
    (run ops (initState deployer)).lockedBalances user token, ?_, by omega, hle⟩
  have hsub : usub ((run ops (initState deployer)).escrowBalances user token)
      ((run ops (initState deployer)).lockedBalances user token) =
      some ((run ops (initState deployer)).escrowBalances user token -
        (run ops (initState deployer)).lockedBalances user token) := by
    unfold usub
    rw [if_pos hle]
  unfold checkEscrowBalance
  rw [hsub]

/-! ### Claim C2: atomicity of same-chain settlement -/

/-- On success, `sameChainLegs` performs exactly the base transfer then
the quote transfer, with senders and receivers determined by party1's
side, and leaves everything except balances untouched. -/
theorem sameChainLegs_some {td : CrossChainTradeData} {qa : Nat}
    {xf1 xf2 : Bool} {s1 : State} {p : State × Transfer × Transfer}
    (h : sameChainLegs td qa xf1 xf2 s1 = some p) :
    (if td.party1Side = "ask" then
      p.2.1 = ⟨td.baseAsset, td.party1, td.party2ReceiveWallet, td.quantity⟩ ∧
      p.2.2 = ⟨td.quoteAsset, td.party2, td.party1ReceiveWallet, qa⟩
    else
      p.2.1 = ⟨td.baseAsset, td.party2, td.party1ReceiveWallet, td.quantity⟩ ∧
      p.2.2 = ⟨td.quoteAsset, td.party1, td.party2ReceiveWallet, qa⟩) ∧
    p.1.settlementStatuses = s1.settlementStatuses ∧
    p.1.settledCrossChainOrders = s1.settledCrossChainOrders ∧
    p.1.settlementByChain = s1.settlementByChain ∧
    p.1.owner = s1.owner := by
  unfold sameChainLegs at h
  split at h
  · rw [if_pos (by assumption)]
    split at h
    · exact absurd h (by simp)
    · next sa hA =>
      split at h
      · exact absurd h (by simp)
      · next sb hB =>
        split at h
        · exact absurd h (by simp)
        · next sc t1 hC =>
          split at h
          · exact absurd h (by simp)
          · next sd t2 hD =>
            cases h
            obtain ⟨-, -, hsa⟩ := lockRequired_some hA
            obtain ⟨-, -, hsb⟩ := lockRequired_some hB
            obtain ⟨-, -, -, ht1, hsc⟩ := transferToken_some hC
            obtain ⟨-, -, -, ht2, hsd⟩ := transferToken_some hD
            subst hsa hsb hsc hsd
            exact ⟨⟨ht1, ht2⟩, rfl, rfl, rfl, rfl⟩
  · rw [if_neg (by assumption)]
    split at h
    · exact absurd h (by simp)
    · next sa hA =>
      split at h
      · exact absurd h (by simp)
      · next sb hB =>
        split at h
        · exact absurd h (by simp)
        · next sc t1 hC =>
          split at h
          · exact absurd h (by simp)
          · next sd t2 hD =>
            cases h
            obtain ⟨-, -, hsa⟩ := lockRequired_some hA
            obtain ⟨-, -, hsb⟩ := lockRequired_some hB
            obtain ⟨-, -, -, ht1, hsc⟩ := transferToken_some hC
            obtain ⟨-, -, -, ht2, hsd⟩ := transferToken_some hD
            subst hsa hsb hsc hsd
            exact ⟨⟨ht1, ht2⟩, rfl, rfl, rfl, rfl⟩

/-- Success characterization of `settleSameChainTrade`: the performed
transfers are exactly the two legs and the settlement record is marked
settled on both legs. -/
theorem settleSameChainTrade_some {ctx : EvmCtx} {td : CrossChainTradeData}
    {xf1 xf2 : Bool} {s : State} {p : State × List Transfer}
    (h : settleSameChainTrade ctx td xf1 xf2 s = some p) :
    p.2 = (if td.party1Side = "ask" then
        [⟨td.baseAsset, td.party1, td.party2ReceiveWallet, td.quantity⟩,
         ⟨td.quoteAsset, td.party2, td.party1ReceiveWallet, td.quantity * td.price / 10 ^ 18⟩]
      else
        [⟨td.baseAsset, td.party2, td.party1ReceiveWallet, td.quantity⟩,
         ⟨td.quoteAsset, td.party1, td.party2ReceiveWallet, td.quantity * td.price / 10 ^ 18⟩]) ∧
    (p.1.settlementStatuses td.orderId).sourceChainSettled = true ∧
    (p.1.settlementStatuses td.orderId).destinationChainSettled = true ∧
    p.1.settledCrossChainOrders td.orderId = true ∧
    p.1.settlementByChain td.orderId ctx.chainid = true ∧
    (∀ oid, ((p.1.settlementStatuses oid).refunded =
      (s.settlementStatuses oid).refunded)) := by
  unfold settleSameChainTrade at h
  split at h
  · split at h
    · split at h
      · split at h
        · split at h
          · split at h
            · split at h
              · exact absurd h (by simp)
              · split at h
                · exact absurd h (by simp)
                · split at h
                  · exact absurd h (by simp)
                  · next m hm =>
                    split at h
                    · exact absurd h (by simp)
                    · next sd t1 t2 hL =>
                      split at h
                      · exact absurd h (by simp)
                      · next n1 hn1 =>
                        split at h
                        · exact absurd h (by simp)
                        · next n2 hn2 =>
                          cases h
                          obtain ⟨hts, hst0, -, -, -⟩ := sameChainLegs_some hL
                          have hst : sd.settlementStatuses = s.settlementStatuses := hst0
                          have hmm := umul_some hm
                          subst hmm
                          constructor
                          · split at hts
                            · rw [if_pos (by assumption)]
                              simp only [List.cons.injEq, and_true]
                              exact ⟨hts.1, hts.2⟩
                            · rw [if_neg (by assumption)]
                              simp only [List.cons.injEq, and_true]
                              exact ⟨hts.1, hts.2⟩
                          · refine ⟨by simp [upd1], by simp [upd1], by simp [upd1],
                              by simp [upd2], ?_⟩
                            intro oid
                            by_cases hoid : oid = td.orderId
                            · subst hoid
                              simp [upd1, hst]
                            · simp [upd1, hoid, hst]
            · exact absurd h (by simp)
          · exact absurd h (by simp)
        · exact absurd h (by simp)
      · exact absurd h (by simp)
    · exact absurd h (by simp)
  · exact absurd h (by simp)

/-- **C2.** Atomicity of same-chain settlement: every call to
`settleSameChainTrade` either succeeds — performing exactly the two leg
transfers (base from the ask-side party to the opposite party's receive
wallet and quote from the bid-side party to the opposite party's
receive wallet) and flipping the settlement record to settled on both
legs — or reverts, performing no transfer and leaving the state
unchanged. -/
theorem settleSameChainTrade_atomic (ctx : EvmCtx) (td : CrossChainTradeData)
    (xf1 xf2 : Bool) (s : State) :
    (∃ s' ts, settleSameChainTrade ctx td xf1 xf2 s = some (s', ts) ∧
      ts = (if td.party1Side = "ask" then
          [⟨td.baseAsset, td.party1, td.party2ReceiveWallet, td.quantity⟩,
           ⟨td.quoteAsset, td.party2, td.party1ReceiveWallet, td.quantity * td.price / 10 ^ 18⟩]
        else
          [⟨td.baseAsset, td.party2, td.party1ReceiveWallet, td.quantity⟩,
           ⟨td.quoteAsset, td.party1, td.party2ReceiveWallet, td.quantity * td.price / 10 ^ 18⟩]) ∧
      (s'.settlementStatuses td.orderId).sourceChainSettled = true ∧
      (s'.settlementStatuses td.orderId).destinationChainSettled = true ∧
      s'.settledCrossChainOrders td.orderId = true ∧
      s'.settlementByChain td.orderId ctx.chainid = true) ∨
    (settleSameChainTrade ctx td xf1 xf2 s = none ∧
      applyOp (Op.settleSame ctx td xf1 xf2) s = s) := by
  cases h : settleSameChainTrade ctx td xf1 xf2 s with
  | none =>
    refine Or.inr ⟨rfl, ?_⟩
    simp [applyOp, stepOp, h]
  | some p =>
    obtain ⟨s', ts⟩ := p
    obtain ⟨hts, h1, h2, h3, h4, -⟩ := settleSameChainTrade_some h
    exact Or.inl ⟨s', ts, rfl, hts, h1, h2, h3, h4⟩

/-! ### Characterizations of `settleCrossChainTrade` -/

theorem validSides_ask {td : CrossChainTradeData} (hv : validSides td = true)
    (h1 : td.party1Side = "ask") : td.party2Side = "bid" := by
  simp only [validSides, Bool.or_eq_true, Bool.and_eq_true, beq_iff_eq] at hv
  rcases hv with ⟨-, h⟩ | ⟨h, -⟩
  · exact h
  · exact absurd (h1 ▸ h) (by decide)

theorem validSides_bid {td : CrossChainTradeData} (hv : validSides td = true)
    (h2 : td.party2Side = "bid") : td.party1Side = "ask" := by
  simp only [validSides, Bool.or_eq_true, Bool.and_eq_true, beq_iff_eq] at hv
  rcases hv with ⟨h, -⟩ | ⟨-, h⟩
  · exact h
  · exact absurd (h2 ▸ h) (by decide)

/-- Facts true of every successful `settleCrossChainTrade` call, on
either leg: the caller is the owner, the order was not yet settled on
this chain and is afterwards, the chain lock is set, party1 is on the
ask side and party2 on the bid side, and the refunded flags are
untouched. -/
theorem settleCrossChainTrade_spec {ctx : EvmCtx} {td : CrossChainTradeData}
    {iso xf : Bool} {s : State} {p : State × List Transfer}
    (h : settleCrossChainTrade ctx td iso xf s = some p) :
    ctx.sender = s.owner ∧
    p.1.owner = s.owner ∧
    s.settlementByChain td.orderId ctx.chainid = false ∧
    p.1.settlementByChain td.orderId ctx.chainid = true ∧
    p.1.orderLocksByChain td.orderId ctx.chainid = true ∧
    td.party1Side = "ask" ∧ td.party2Side = "bid" ∧
    (∀ oid, (p.1.settlementStatuses oid).refunded =
      (s.settlementStatuses oid).refunded) := by
  unfold settleCrossChainTrade at h
  split at h
  case isFalse => exact absurd h (by simp)
  case isTrue hsend =>
    split at h
    · exact absurd h (by simp)
    · next s1 hE =>
      obtain ⟨hl1, hown1, hsbc1, hesc1, hst1, hnon1, hscc1, hext1⟩ :=
        ensureLockForCurrentChain_some hE
      split at h
      · exact absurd h (by simp)
      · next hguard =>
        have hguard' : s.settlementByChain td.orderId ctx.chainid = false := by
          rw [hsbc1] at hguard
          simpa using hguard
        split at h
        · split at h
          · split at h
            · split at h
              · split at h
                case isTrue hv =>
                  split at h
                  · exact absurd h (by simp)
                  · next m hm =>
                    split at h
                    · exact absurd h (by simp)
                    · next s3 tr hS =>
                      obtain ⟨hask, -, -, -, htr, hs3⟩ := settleSourceChain_some hS
                      have hs3' : s3 = _ := hs3
                      split at h
                      · next n hn =>
                        cases h
                        subst hs3'
                        refine ⟨hsend, hown1, hguard', by simp [upd2], hl1, hask,
                          validSides_ask hv hask, ?_⟩
                        intro oid
                        by_cases hoid : oid = td.orderId <;> simp [upd1, hoid, hst1]
                      · exact absurd h (by simp)
                case isFalse => exact absurd h (by simp)
              · exact absurd h (by simp)
            · exact absurd h (by simp)
          · exact absurd h (by simp)
        · split at h
          · split at h
            · split at h
              · split at h
                case isTrue hv =>
                  split at h
                  · exact absurd h (by simp)
                  · next m hm =>
                    split at h
                    · exact absurd h (by simp)
                    · next s3 tr hS =>
                      obtain ⟨hbid, -, -, -, htr, hs3⟩ := settleDestinationChain_some hS
                      have hs3' : s3 = _ := hs3
                      split at h
                      · next n hn =>
                        cases h
                        subst hs3'
                        refine ⟨hsend, hown1, hguard', by simp [upd2], hl1,
                          validSides_bid hv hbid, hbid, ?_⟩
                        intro oid
                        by_cases hoid : oid = td.orderId <;> simp [upd1, hoid, hst1]
                      · exact absurd h (by simp)
                case isFalse => exact absurd h (by simp)
              · exact absurd h (by simp)
            · exact absurd h (by simp)
          · exact absurd h (by simp)

/-! ### Claim C4: source-leg postcondition of `settleCrossChainTrade` -/

/-- **C4.** Source-leg postcondition of `settleCrossChainTrade`: every
successful call with `isSourceChain = true` runs on the chain
`tradeData.sourceChainId`; if no lock existed for
`(orderId, chainid)`, the base amount was first locked from party1's
available escrow (so the net locked balance is unchanged), otherwise
the locked balance drops by exactly `quantity`; exactly `quantity` of
the base asset is debited from party1's total escrow and transferred to
`party2ReceiveWallet`; `settlementByChain[orderId][chainid]` and
`sourceChainSettled` are set; and party1's base-asset nonce becomes
`nonce1 + 1`. -/
theorem settleCrossChainTrade_source_postconditions {ctx : EvmCtx}
    {td : CrossChainTradeData} {xf : Bool} {s : State} {p : State × List Transfer}
    (h : settleCrossChainTrade ctx td true xf s = some p) :
    ctx.chainid = td.sourceChainId ∧
    p.2 = [⟨td.baseAsset, td.party1, td.party2ReceiveWallet, td.quantity⟩] ∧
    td.quantity ≤ s.escrowBalances td.party1 td.baseAsset ∧
    p.1.escrowBalances td.party1 td.baseAsset =
      s.escrowBalances td.party1 td.baseAsset - td.quantity ∧
    (s.orderLocksByChain td.orderId ctx.chainid = false →
      s.lockedBalances td.party1 td.baseAsset + td.quantity ≤
        s.escrowBalances td.party1 td.baseAsset ∧
      p.1.lockedBalances td.party1 td.baseAsset =
        s.lockedBalances td.party1 td.baseAsset) ∧
    (s.orderLocksByChain td.orderId ctx.chainid = true →
      td.quantity ≤ s.lockedBalances td.party1 td.baseAsset ∧
      p.1.lockedBalances td.party1 td.baseAsset =
        s.lockedBalances td.party1 td.baseAsset - td.quantity) ∧
    p.1.orderLocksByChain td.orderId ctx.chainid = true ∧
    p.1.settlementByChain td.orderId ctx.chainid = true ∧
    (p.1.settlementStatuses td.orderId).sourceChainSettled = true ∧
    p.1.nonces td.party1 td.baseAsset = td.nonce1 + 1 := by
  unfold settleCrossChainTrade at h
  split at h
  case isFalse => exact absurd h (by simp)
  case isTrue hsend =>
    split at h
    · exact absurd h (by simp)
    · next s1 hE =>
      split at h
      · exact absurd h (by simp)
      · next hguard =>
        split at h
        · split at h
          case isTrue hchain =>
            split at h
            · split at h
              · split at h
                case isTrue hv =>
                  split at h
                  · exact absurd h (by simp)
                  · next m hm =>
                    split at h
                    · exact absurd h (by simp)
                    · next s3 tr hS =>
                      obtain ⟨hask, hlocked2, hescrow2, -, htr, hs3⟩ :=
                        settleSourceChain_some hS
                      have hs3' : s3 = _ := hs3
                      have htr' : tr = _ := htr
                      split at h
                      · next n hn =>
                        have hn' := uadd_some hn
                        cases h
                        subst hs3' htr' hn'
                        rcases ensureLockForCurrentChain_source hE with
                          ⟨hlk, hs1⟩ | ⟨hlk, -, hLE, hq, hs1⟩
                        · subst hs1
                          refine ⟨hchain, rfl, ?_, ?_, ?_, ?_, hlk ▸ (by simp [upd2]),
                            by simp [upd2], by simp [upd1], by simp [upd2]⟩
                          · simpa using hescrow2
                          · simp [upd2]
                          · intro hfalse
                            rw [hfalse] at hlk
                            exact absurd hlk (by simp)
                          · intro _
                            exact ⟨by simpa using hlocked2, by simp [upd2]⟩
                        · subst hs1
                          have hlocked2' : td.quantity ≤
                              s.lockedBalances td.party1 td.baseAsset + td.quantity := by
                            omega
                          refine ⟨hchain, rfl, by omega, by simp [upd2], ?_, ?_,
                            by simp [upd2], by simp [upd2], by simp [upd1], by simp [upd2]⟩
                          · intro _
                            refine ⟨by omega, ?_⟩
                            simp [upd2]
                          · intro htrue
                            rw [htrue] at hlk
                            exact absurd hlk (by simp)
                      · exact absurd h (by simp)
                case isFalse => exact absurd h (by simp)
              · exact absurd h (by simp)
            · exact absurd h (by simp)
          case isFalse => exact absurd h (by simp)
        · next hq => exact absurd rfl hq

def ctxC4 : EvmCtx := ⟨100, 1000, 99⟩

def tdC4 : CrossChainTradeData :=
  ⟨8, 11, 12, 13, 14, 21, 22, 2 * 10 ^ 18, 5, "ask", "bid", 100, 200, 7, 3, 0⟩

def s0C4 : State :=
  { initState 99 with escrowBalances := upd2 (fun _ _ => 0) 11 21 50 }

def settleC4 : State × List Transfer :=
  (settleCrossChainTrade ctxC4 tdC4 true true s0C4).getD (initState 0, [])

theorem settleCrossChainTrade_source_postconditions_witness :
    ctxC4.chainid = tdC4.sourceChainId ∧
    settleC4.2 = [⟨tdC4.baseAsset, tdC4.party1, tdC4.party2ReceiveWallet, tdC4.quantity⟩] ∧
    settleC4.1.settlementByChain tdC4.orderId ctxC4.chainid = true ∧
    settleC4.1.nonces tdC4.party1 tdC4.baseAsset = tdC4.nonce1 + 1 := by
  obtain ⟨h1, h2, -, -, -, -, -, h8, -, h10⟩ :=
    @settleCrossChainTrade_source_postconditions ctxC4 tdC4 true s0C4 settleC4 rfl
  exact ⟨h1, h2, h8, h10⟩

/-! ### Claim C3: replay of a settled leg -/

/-- **C3 (amended).** Replay of a settled leg: after
`settleCrossChainTrade` succeeds for `(orderId, chainid)`, calling it
again with the same trade data on the same chain reverts with
"Order already settled on this chain" — the on-chain state after the
second call is identical to the state after the first call (the revert
rolls everything back), but the call is surfaced as an error, not as a
success. -/
theorem settleCrossChainTrade_replay_reverts {ctx : EvmCtx}
    {td : CrossChainTradeData} {iso xf xf' : Bool} {s : State}
    {p : State × List Transfer}
    (h : settleCrossChainTrade ctx td iso xf s = some p) :
    settleCrossChainTrade ctx td iso xf' p.1 = none ∧
    applyOp (Op.settleCross ctx td iso xf') p.1 = p.1 := by
  have hnone : settleCrossChainTrade ctx td iso xf' p.1 = none := by
    cases h2 : settleCrossChainTrade ctx td iso xf' p.1 with
    | none => rfl
    | some p2 =>
      obtain ⟨-, -, -, hset, -, -, -, -⟩ := settleCrossChainTrade_spec h
      obtain ⟨-, -, hun, -, -, -, -, -⟩ := settleCrossChainTrade_spec h2
      rw [hset] at hun
      exact absurd hun (by simp)
  exact ⟨hnone, by simp [applyOp, stepOp, hnone]⟩

def ctxC3 : EvmCtx := ⟨100, 1000, 99⟩

def tdC3 : CrossChainTradeData :=
  ⟨1, 11, 12, 13, 14, 21, 22, 2 * 10 ^ 18, 5, "ask", "bid", 100, 200, 7, 0, 0⟩

def s0C3 : State :=
  { initState 99 with escrowBalances := upd2 (fun _ _ => 0) 11 21 50 }

/-- **C3 (counterexample).** A concrete source-leg settlement succeeds;
replaying the very same call on the resulting state returns `none`
(revert) instead of being surfaced as a success. -/
theorem settleCross_replay_counterexample :
    (settleCrossChainTrade ctxC3 tdC3 true true s0C3).isSome = true ∧
    ((settleCrossChainTrade ctxC3 tdC3 true true s0C3).bind fun q =>
      settleCrossChainTrade ctxC3 tdC3 true true q.1) = none :=
  ⟨rfl, rfl⟩

def replayC3 : State × List Transfer :=
  (settleCrossChainTrade ctxC3 tdC3 true true s0C3).getD (initState 0, [])

theorem settleCross_replay_reverts_witness :
    settleCrossChainTrade ctxC3 tdC3 true true replayC3.1 = none ∧
    applyOp (Op.settleCross ctxC3 tdC3 true true) replayC3.1 = replayC3.1 :=
  @settleCrossChainTrade_replay_reverts ctxC3 tdC3 true true true s0C3 replayC3 rfl

/-! ### Claim C9: the bid/ask side combination can never settle cross-chain -/

/-- **C9.** A cross-chain trade descriptor with `party1Side = "bid"`
and `party2Side = "ask"` passes the opposite-sides validation, yet
`settleCrossChainTrade` unconditionally reverts on both legs for it,
with no state change; dually, any successful cross-chain settlement has
party1 on the ask side and party2 on the bid side. -/
theorem settleCross_bid_ask_always_reverts :
    (∀ (ctx : EvmCtx) (td : CrossChainTradeData) (iso xf : Bool) (s : State),
      td.party1Side = "bid" → td.party2Side = "ask" →
      validSides td = true ∧ settleCrossChainTrade ctx td iso xf s = none) ∧
    (∀ (ctx : EvmCtx) (td : CrossChainTradeData) (iso xf : Bool) (s : State)
      (p : State × List Transfer),
      settleCrossChainTrade ctx td iso xf s = some p →
      td.party1Side = "ask" ∧ td.party2Side = "bid") := by
  constructor
  · intro ctx td iso xf s h1 h2
    refine ⟨by simp [validSides, h1, h2], ?_⟩
    cases h : settleCrossChainTrade ctx td iso xf s with
    | none => rfl
    | some p =>
      obtain ⟨-, -, -, -, -, hask, -, -⟩ := settleCrossChainTrade_spec h
      rw [h1] at hask
      exact absurd hask (by decide)
  · intro ctx td iso xf s p h
    obtain ⟨-, -, -, -, -, hask, hbid, -⟩ := settleCrossChainTrade_spec h
    exact ⟨hask, hbid⟩

def tdC9 : CrossChainTradeData :=
  ⟨3, 11, 12, 13, 14, 21, 22, 10 ^ 18, 5, "bid", "ask", 100, 200, 7, 0, 0⟩

theorem settleCross_bid_ask_always_reverts_witness :
    validSides tdC9 = true ∧
    settleCrossChainTrade ⟨100, 0, 99⟩ tdC9 true true (initState 99) = none :=
  settleCross_bid_ask_always_reverts.1 ⟨100, 0, 99⟩ tdC9 true true (initState 99) rfl rfl

/-! ### Claims C5 and C10: emergency refund -/

/-- Full success characterization of
`emergencyRefundAsymmetricSettlement`: the preconditions that were
required, the updated record, and exactly which transfer (if any) was
performed. -/
theorem emergencyRefund_some {ctx : EvmCtx} {orderId : Nat}
    {td : CrossChainTradeData} {xf : Bool} {s : State}
    {p : State × List Transfer}
    (h : emergencyRefundAsymmetricSettlement ctx orderId td xf s = some p) :
    ctx.sender = s.owner ∧
    (s.settlementStatuses orderId).refunded = false ∧
    (s.settlementStatuses orderId).sourceChainSettled ≠
      (s.settlementStatuses orderId).destinationChainSettled ∧
    s.settlementByChain orderId ctx.chainid = true ∧
    p.1 = { s with
      settlementStatuses := upd1 s.settlementStatuses orderId
        ({ s.settlementStatuses orderId with refunded := true }) } ∧
    (if ctx.chainid = td.sourceChainId ∧
        (s.settlementStatuses orderId).sourceChainSettled = true then
      td.party1Side = "ask" ∧ xf = true ∧
      p.2 = [⟨td.baseAsset, td.party2ReceiveWallet, td.party1, td.quantity⟩]
    else if ¬ ctx.chainid = td.sourceChainId ∧
        (s.settlementStatuses orderId).destinationChainSettled = true then
      td.party2Side = "bid" ∧ xf = true ∧
      p.2 = [⟨td.quoteAsset, td.party1ReceiveWallet, td.party2,
        td.quantity * td.price / 10 ^ 18⟩]
    else p.2 = []) := by
  unfold emergencyRefundAsymmetricSettlement at h
  split at h
  case isFalse => exact absurd h (by simp)
  case isTrue hsend =>
    split at h
    case isTrue => exact absurd h (by simp)
    case isFalse href =>
      split at h
      case isFalse => exact absurd h (by simp)
      case isTrue hxor =>
        split at h
        case isFalse => exact absurd h (by simp)
        case isTrue hbc =>
          split at h
          case isTrue hc1 =>
            split at h
            case isFalse => exact absurd h (by simp)
            case isTrue hask =>
              split at h
              case isFalse => exact absurd h (by simp)
              case isTrue hxf =>
                cases h
                refine ⟨hsend, by simpa using href, hxor, hbc, rfl, ?_⟩
                rw [if_pos hc1]
                exact ⟨hask, by simpa using hxf, rfl⟩
          case isFalse hc1 =>
            split at h
            case isTrue hc2 =>
              split at h
              case h_1 => exact absurd h (by simp)
              case h_2 m hm =>
                split at h
                case isFalse => exact absurd h (by simp)
                case isTrue hbid =>
                  split at h
                  case isFalse => exact absurd h (by simp)
                  case isTrue hxf =>
                    have hm' := umul_some hm
                    cases h
                    subst hm'
                    refine ⟨hsend, by simpa using href, hxor, hbc, rfl, ?_⟩
                    rw [if_neg hc1, if_pos hc2]
                    exact ⟨hbid, by simpa using hxf, rfl⟩
            case isFalse hc2 =>
              cases h
              refine ⟨hsend, by simpa using href, hxor, hbc, rfl, ?_⟩
              rw [if_neg hc1, if_neg hc2]

/-- **C5 (amended).** `emergencyRefundAsymmetricSettlement` succeeds
only when the record is not yet refunded, exactly one leg is settled,
and a settlement was executed on the current chain.  On success it
marks the record refunded and: if the executing chain is the supplied
trade data's source chain and the source leg is settled, it transfers
`quantity` of the base asset from `party2ReceiveWallet` back to
`party1`; if the executing chain is not the source chain and the
destination leg is settled, it transfers `quantity * price / 1e18` of
the quote asset from `party1ReceiveWallet` back to `party2`; otherwise
— when the supplied chain ids mis-classify the executing chain relative
to the settled leg — it performs NO transfer at all while still marking
the record refunded. -/
theorem emergencyRefund_postconditions {ctx : EvmCtx} {orderId : Nat}
    {td : CrossChainTradeData} {xf : Bool} {s : State}
    {p : State × List Transfer}
    (h : emergencyRefundAsymmetricSettlement ctx orderId td xf s = some p) :
    (s.settlementStatuses orderId).refunded = false ∧
    (s.settlementStatuses orderId).sourceChainSettled ≠
      (s.settlementStatuses orderId).destinationChainSettled ∧
    s.settlementByChain orderId ctx.chainid = true ∧
    (p.1.settlementStatuses orderId).refunded = true ∧
    (if ctx.chainid = td.sourceChainId ∧
        (s.settlementStatuses orderId).sourceChainSettled = true then
      p.2 = [⟨td.baseAsset, td.party2ReceiveWallet, td.party1, td.quantity⟩]
    else if ¬ ctx.chainid = td.sourceChainId ∧
        (s.settlementStatuses orderId).destinationChainSettled = true then
      p.2 = [⟨td.quoteAsset, td.party1ReceiveWallet, td.party2,
        td.quantity * td.price / 10 ^ 18⟩]
    else p.2 = []) := by
  obtain ⟨-, h1, h2, h3, hp, hif⟩ := emergencyRefund_some h
  refine ⟨h1, h2, h3, by rw [hp]; simp [upd1], ?_⟩
  split at hif
  · rw [if_pos (by assumption)]
    exact hif.2.2
  · split at hif
    · rw [if_neg (by assumption), if_pos (by assumption)]
      exact hif.2.2
    · rw [if_neg (by assumption), if_neg (by assumption)]
      exact hif

def ctxC5 : EvmCtx := ⟨200, 1001, 99⟩

def tdC5 : CrossChainTradeData :=
  ⟨4, 11, 12, 13, 14, 21, 22, 2 * 10 ^ 18, 5, "ask", "bid", 100, 200, 7, 0, 0⟩

/-- The same trade data with a forged `sourceChainId`, as an operator
may submit: the contract never validates the supplied trade data
against the original one. -/
def tdC5bogus : CrossChainTradeData := { tdC5 with sourceChainId := 200 }

def s0C5 : State :=
  { initState 99 with escrowBalances := upd2 (fun _ _ => 0) 12 22 100 }

/-- **C5 (counterexample).** Settle only the destination leg of `tdC5`
on chain 200 (an asymmetric settlement), then call the emergency refund
on chain 200 but with trade data whose `sourceChainId` is forged to
200.  All the claim's preconditions hold (not refunded, exactly one leg
settled, settlement executed on this chain), the call SUCCEEDS and
marks the record refunded — yet it performs no transfer at all, instead
of reversing the settled leg. -/
theorem emergencyRefund_counterexample :
    ((settleCrossChainTrade ctxC5 tdC5 false true s0C5).bind fun q =>
        emergencyRefundAsymmetricSettlement ctxC5 tdC5.orderId tdC5bogus true q.1).map
      (fun q => (q.2, (q.1.settlementStatuses tdC5.orderId).refunded)) =
    some ([], true) :=
  rfl

def ctxC5w : EvmCtx := ⟨100, 1001, 99⟩

def tdC5w : CrossChainTradeData :=
  ⟨5, 11, 12, 13, 14, 21, 22, 2 * 10 ^ 18, 5, "ask", "bid", 100, 200, 7, 0, 0⟩

def s0C5w : State :=
  { initState 99 with escrowBalances := upd2 (fun _ _ => 0) 11 21 50 }

def refundW1 : State × List Transfer :=
  (settleCrossChainTrade ctxC5w tdC5w true true s0C5w).getD (initState 0, [])

def refundW2 : State × List Transfer :=
  (emergencyRefundAsymmetricSettlement ctxC5w tdC5w.orderId tdC5w true refundW1.1).getD
    (initState 0, [])

theorem emergencyRefund_postconditions_witness :
    (refundW1.1.settlementStatuses tdC5w.orderId).refunded = false ∧
    (refundW1.1.settlementStatuses tdC5w.orderId).sourceChainSettled ≠
      (refundW1.1.settlementStatuses tdC5w.orderId).destinationChainSettled ∧
    refundW1.1.settlementByChain tdC5w.orderId ctxC5w.chainid = true ∧
    (refundW2.1.settlementStatuses tdC5w.orderId).refunded = true ∧
    (if ctxC5w.chainid = tdC5w.sourceChainId ∧
        (refundW1.1.settlementStatuses tdC5w.orderId).sourceChainSettled = true then
      refundW2.2 = [⟨tdC5w.baseAsset, tdC5w.party2ReceiveWallet, tdC5w.party1,
        tdC5w.quantity⟩]
    else if ¬ ctxC5w.chainid = tdC5w.sourceChainId ∧
        (refundW1.1.settlementStatuses tdC5w.orderId).destinationChainSettled = true then
      refundW2.2 = [⟨tdC5w.quoteAsset, tdC5w.party1ReceiveWallet, tdC5w.party2,
        tdC5w.quantity * tdC5w.price / 10 ^ 18⟩]
    else refundW2.2 = []) :=
  @emergencyRefund_postconditions ctxC5w tdC5w.orderId tdC5w true refundW1.1 refundW2 rfl

/-! ### Claim C6: asymmetry detection in `reportSettlementFailure` -/

def ctxC6dest : EvmCtx := ⟨11155111, 1000, 99⟩

def ctxC6rep : EvmCtx := ⟨296, 2000, 99⟩

def tdC6 : CrossChainTradeData :=
  ⟨6, 11, 12, 13, 14, 21, 22, 2 * 10 ^ 18, 5, "ask", "bid", 296, 11155111, 7, 0, 0⟩

def s0C6 : State :=
  { initState 99 with escrowBalances := upd2 (fun _ _ => 0) 12 22 100 }

/-- **C6 (failing input).** The destination leg of `tdC6` settles on
chain 11155111; the source leg then fails and
`reportSettlementFailure(orderId, 296, true, _)` is called on chain
296.  The asymmetry IS detected (opposite leg settled, reported leg
not), but the emitted `AsymmetricSettlementDetected.settledChainId` is
296 — the failed chain — because the code compares the reported chain
id with the stored source-chain *timestamp* (`failedChainId ==
status.sourceChainTimestamp`) and falls back to `block.chainid`.  The
chain the opposite leg actually settled on (11155111) is not
identified, contradicting the claim's (and spec's) intent. -/
theorem reportSettlementFailure_settledChainId_bug :
    ((settleCrossChainTrade ctxC6dest tdC6 false true s0C6).bind fun q =>
        reportSettlementFailure ctxC6rep tdC6.orderId 296 true "source leg failed" q.1).map
      (fun q => q.2) = some [⟨tdC6.orderId, 296, 296, 2000⟩] ∧
    ctxC6dest.chainid ≠ (296 : Nat) :=
  ⟨rfl, by decide⟩

theorem depositToEscrow_statuses {ctx : EvmCtx} {xf : Bool} {token amount : Nat}
    {s s' : State} (h : depositToEscrow ctx xf token amount s = some s') :
    s'.settlementStatuses = s.settlementStatuses := by
  unfold depositToEscrow at h
  split at h
  · split at h
    · split at h
      · cases h
        rfl
      · exact absurd h (by simp)
    · exact absurd h (by simp)
  · exact absurd h (by simp)

theorem withdrawFromEscrow_statuses {ctx : EvmCtx} {xf : Bool} {token amount : Nat}
    {s s' : State} (h : withdrawFromEscrow ctx xf token amount s = some s') :
    s'.settlementStatuses = s.settlementStatuses := by
  unfold withdrawFromEscrow at h
  split at h
  · exact absurd h (by simp)
  · split at h
    · split at h
      · split at h
        · split at h
          · cases h
            rfl
          · exact absurd h (by simp)
        · exact absurd h (by simp)
      · exact absurd h (by simp)
    · exact absurd h (by simp)

theorem lockEscrowForOrder_statuses {ctx : EvmCtx} {user token amount orderId : Nat}
    {s s' : State} (h : lockEscrowForOrder ctx user token amount orderId s = some s') :
    s'.settlementStatuses = s.settlementStatuses := by
  unfold lockEscrowForOrder at h
  split at h
  · split at h
    · exact absurd h (by simp)
    · split at h
      · exact absurd h (by simp)
      · split at h
        · split at h
          · cases h
            rfl
          · exact absurd h (by simp)
        · exact absurd h (by simp)
  · exact absurd h (by simp)

theorem reportSettlementFailure_state {ctx : EvmCtx} {orderId failedChainId : Nat}
    {iso : Bool} {reason : String} {s : State} {p : State × List AsymmetricEvent}
    (h : reportSettlementFailure ctx orderId failedChainId iso reason s = some p) :
    p.1 = s := by
  unfold reportSettlementFailure at h
  split at h
  · split at h
    · cases h
      rfl
    · split at h
      · cases h
        rfl
      · cases h
        rfl
  · exact absurd h (by simp)

/-! ### Claim C10: at most one refund per order -/

/-- **C10.** At most one refund per order: a successful
`emergencyRefundAsymmetricSettlement` sets `refunded = true` for the
order; once the record is refunded, every further refund call for the
same order reverts with no state change; and no contract operation
whatsoever ever resets the flag (it is monotone). -/
theorem refund_at_most_once :
    (∀ (ctx : EvmCtx) (orderId : Nat) (td : CrossChainTradeData) (xf : Bool)
      (s : State) (p : State × List Transfer),
      emergencyRefundAsymmetricSettlement ctx orderId td xf s = some p →
      (p.1.settlementStatuses orderId).refunded = true) ∧
    (∀ (ctx : EvmCtx) (orderId : Nat) (td : CrossChainTradeData) (xf : Bool)
      (s : State), (s.settlementStatuses orderId).refunded = true →
      emergencyRefundAsymmetricSettlement ctx orderId td xf s = none ∧
      applyOp (Op.refund ctx orderId td xf) s = s) ∧
    (∀ (op : Op) (s : State) (oid : Nat),
      (s.settlementStatuses oid).refunded = true →
      ((applyOp op s).settlementStatuses oid).refunded = true) := by
  refine ⟨?_, ?_, ?_⟩
  · intro ctx orderId td xf s p h
    obtain ⟨-, -, -, -, hp, -⟩ := emergencyRefund_some h
    rw [hp]
    simp [upd1]
  · intro ctx orderId td xf s h
    have hnone : emergencyRefundAsymmetricSettlement ctx orderId td xf s = none := by
      simp [emergencyRefundAsymmetricSettlement, h]
    exact ⟨hnone, by simp [applyOp, stepOp, hnone]⟩
  · intro op s oid h
    cases op with
    | deposit ctx xf token amount =>
      simp only [applyOp, stepOp]
      cases h' : depositToEscrow ctx xf token amount s with
      | none => exact h
      | some s' => simpa [depositToEscrow_statuses h'] using h
    | withdraw ctx xf token amount =>
      simp only [applyOp, stepOp]
      cases h' : withdrawFromEscrow ctx xf token amount s with
      | none => exact h
      | some s' => simpa [withdrawFromEscrow_statuses h'] using h
    | lock ctx user token amount orderId =>
      simp only [applyOp, stepOp]
      cases h' : lockEscrowForOrder ctx user token amount orderId s with
      | none => exact h
      | some s' => simpa [lockEscrowForOrder_statuses h'] using h
    | settleCross ctx td iso xf =>
      simp only [applyOp, stepOp]
      cases h' : settleCrossChainTrade ctx td iso xf s with
      | none => exact h
      | some p =>
        obtain ⟨-, -, -, -, -, -, -, hrf⟩ := settleCrossChainTrade_spec h'
        simpa [hrf oid] using h
    | settleSame ctx td xf1 xf2 =>
      simp only [applyOp, stepOp]
      cases h' : settleSameChainTrade ctx td xf1 xf2 s with
      | none => exact h
      | some p =>
        obtain ⟨-, -, -, -, -, hrf⟩ := settleSameChainTrade_some h'
        simpa [hrf oid] using h
    | refund ctx orderId td xf =>
      simp only [applyOp, stepOp]
      cases h' : emergencyRefundAsymmetricSettlement ctx orderId td xf s with
      | none => exact h
      | some p =>
        obtain ⟨-, -, -, -, hp, -⟩ := emergencyRefund_some h'
        simp only [Option.map_some', Option.getD_some, hp]
        by_cases hoid : oid = orderId
        · subst hoid
          simp [upd1]
        · simpa [upd1, hoid] using h
    | reportFailure ctx orderId failedChainId iso reason =>
      simp only [applyOp, stepOp]
      cases h' : reportSettlementFailure ctx orderId failedChainId iso reason s with
      | none => exact h
      | some p => simpa [reportSettlementFailure_state h'] using h

def tdC10 : CrossChainTradeData :=
  ⟨7, 11, 12, 13, 14, 21, 22, 10 ^ 18, 5, "ask", "bid", 100, 200, 7, 0, 0⟩

def sC10 : State :=
  { initState 99 with
    settlementStatuses := upd1 (fun _ => ⟨false, false, 0, 0, false⟩) 7 ⟨true, false, 5, 0, true⟩ }

theorem refund_at_most_once_witness :
    emergencyRefundAsymmetricSettlement ⟨100, 0, 99⟩ 7 tdC10 true sC10 = none ∧
    applyOp (Op.refund ⟨100, 0, 99⟩ 7 tdC10 true) sC10 = sC10 :=
  refund_at_most_once.2.1 ⟨100, 0, 99⟩ 7 tdC10 true sC10 rfl

/-! ### Frontend order admission (claims C7 and C8)

Embedding of the submit flows of `frontend/src/hooks/useTrade.ts`
(`baseSubmit`), `frontend/src/hooks/useTradeCross.ts` (`submitOrder`,
modelled as `submitOrderCross`) and the legacy hook kept in the
repository (`submitOrder`, modelled as `legacySubmitOrder`).  Prices,
quantities and amounts are modelled as exact naturals in the token's
smallest unit (the JavaScript computes `Number(qty) * Number(price)`
in binary floating point and formats with `toFixed(18)` before
`parseUnits`; the check-selection logic under study is independent of
that rounding).  Wallet/RPC interactions are abstracted into boolean
outcomes supplied by the environment. -/

/-- Frontend order parameters (`OrderParams` in the hooks).  Network
keys are taken already lowercased, as the hooks lowercase them before
use. -/
structure OrderParams where
  baseAsset : String
  quoteAsset : String
  price : Nat
  quantity : Nat
  side : String
  fromNetwork : String
  toNetwork : String

/-- The escrow pre-check a submit flow performs before registering the
order: which network's settlement contract is consulted, which token
address, and the required amount. -/
structure EscrowPrecheck where
  network : String
  token : Addr
  amount : Nat
deriving DecidableEq

/-- Frontend environment: the configured registries
(`CHAIN_REGISTRY`, `resolveTokenAddress`, `resolveSettlementAddress`),
the operator's `/api/get_settlement_address` answer (`none` models a
failed request), and the outcomes of the wallet and chain
interactions. -/
structure FrontendConfig where
  chainKnown : String → Bool
  tokenAddress : String → String → Option Addr
  settlementAddress : String → Option Addr
  backendSettlementAddress : String → Option Addr
  networkOk : Bool
  nativeOk : Bool
  escrowAvailable : Addr → Nat
  depositOk : Bool
  backendAccepts : Bool

/-- Result of a submit flow.  `failedBeforeSubmit` is any exception
thrown before `register_order*` is called; `rejectedByBackend` means
the order reached the book endpoint and was rejected there;
`mismatchWarned` records whether the settlement-address comparison
against the operator detected a mismatch (which the flow only logs). -/
inductive SubmitResult where
  | failedBeforeSubmit (reason : String)
  | rejectedByBackend (pre : EscrowPrecheck) (mismatchWarned : Bool)
  | submitted (pre : EscrowPrecheck) (mismatchWarned : Bool)
deriving DecidableEq

/-- `tokenToUse` of the submit flows: base token for an ask, quote
token for a bid. -/
def tokenToUse (o : OrderParams) (baseTokenAddress quoteTokenAddress : Addr) : Addr :=
  if o.side = "ask" then baseTokenAddress else quoteTokenAddress

/-- `amountToUse` of the submit flows: `quantity` for an ask,
`quantity * price` for a bid. -/
def amountToUse (o : OrderParams) : Nat :=
  if o.side = "ask" then o.quantity else o.quantity * o.price

/-- Whether the settlement-address comparison against the operator's
configured address reports a mismatch.  In `useTrade.ts` the mismatch
error is thrown inside a `try { ... } catch (e) { console.warn(...) }`
block, so it is logged and the submission continues. -/
def mismatchWarning (cfg : FrontendConfig) (networkKey : String)
    (settlementAddr : Addr) : Bool :=
  match cfg.backendSettlementAddress networkKey with
  | none => false
  | some backendAddr => backendAddr != settlementAddr

/-- `baseSubmit` of `useTrade.ts` (used by both `submitOrder` and
`submitOrderCross` of that hook): the escrow network is always
`fromNetwork`, both token addresses are resolved on `fromNetwork`, the
settlement address must differ from both token addresses, the network
and native-balance checks run, the backend settlement-address mismatch
is checked but its failure swallowed, then the escrow of `tokenToUse`
is compared to `amountToUse` (depositing the difference if needed) and
the order is submitted. -/
def baseSubmit (cfg : FrontendConfig) (o : OrderParams) : SubmitResult :=
  if cfg.chainKnown o.fromNetwork = false then
    .failedBeforeSubmit "Unknown network"
  else
    match cfg.tokenAddress o.fromNetwork o.baseAsset with
    | none => .failedBeforeSubmit "Token address not configured"
    | some baseTokenAddress =>
      match cfg.tokenAddress o.fromNetwork o.quoteAsset with
      | none => .failedBeforeSubmit "Token address not configured"
      | some quoteTokenAddress =>
        match cfg.settlementAddress o.fromNetwork with
        | none => .failedBeforeSubmit "Settlement address not set"
        | some settlementAddr =>
          if settlementAddr = baseTokenAddress ∨ settlementAddr = quoteTokenAddress then
            .failedBeforeSubmit "CONFIG_ERROR: settlement address matches a token address"
          else if cfg.networkOk = false then
            .failedBeforeSubmit "WRONG_NETWORK"
          else if cfg.nativeOk = false then
            .failedBeforeSubmit "INSUFFICIENT_PAYER_BALANCE"
          else if cfg.escrowAvailable (tokenToUse o baseTokenAddress quoteTokenAddress) <
              amountToUse o ∧ cfg.depositOk = false then
            .failedBeforeSubmit "Failed to deposit to escrow"
          else if cfg.backendAccepts then
            .submitted ⟨o.fromNetwork, tokenToUse o baseTokenAddress quoteTokenAddress,
                amountToUse o⟩
              (mismatchWarning cfg o.fromNetwork settlementAddr)
          else
            .rejectedByBackend ⟨o.fromNetwork, tokenToUse o baseTokenAddress quoteTokenAddress,
                amountToUse o⟩
              (mismatchWarning cfg o.fromNetwork settlementAddr)

/-- `submitOrder` of `useTradeCross.ts`: always uses `fromNetwork` for
approvals and escrow; resolves both tokens on `fromNetwork`; compares
the settlement address against both token addresses before the
explicit missing-token checks (a missing token address therefore throws
a `TypeError` at the comparison — still an admission failure); performs
no backend settlement-address comparison and no native-balance check. -/
def submitOrderCross (cfg : FrontendConfig) (o : OrderParams) : SubmitResult :=
  match cfg.settlementAddress o.fromNetwork with
  | none => .failedBeforeSubmit "TypeError: settlement address missing"
  | some settlementAddr =>
    match cfg.tokenAddress o.fromNetwork o.baseAsset,
        cfg.tokenAddress o.fromNetwork o.quoteAsset with
    | some baseTokenAddressFrom, some quoteTokenAddressFrom =>
      if settlementAddr = baseTokenAddressFrom ∨ settlementAddr = quoteTokenAddressFrom then
        .failedBeforeSubmit "CONFIG_ERROR: settlement address matches a token address"
      else if cfg.networkOk = false then
        .failedBeforeSubmit "WRONG_NETWORK"
      else if cfg.escrowAvailable (tokenToUse o baseTokenAddressFrom quoteTokenAddressFrom) <
          amountToUse o ∧ cfg.depositOk = false then
        .failedBeforeSubmit "Failed to deposit to escrow"
      else if cfg.backendAccepts then
        .submitted ⟨o.fromNetwork, tokenToUse o baseTokenAddressFrom quoteTokenAddressFrom,
            amountToUse o⟩ false
      else
        .rejectedByBackend ⟨o.fromNetwork, tokenToUse o baseTokenAddressFrom quoteTokenAddressFrom,
            amountToUse o⟩ false
    | _, _ =>
      .failedBeforeSubmit "CONFIG_ERROR: token not configured"

/-- `submitOrder` of the legacy hook kept in the repository: the escrow
network is side-dependent (`side == 'ask' ? fromNetwork : toNetwork`),
the base token is resolved on `fromNetwork` but the quote token on
`toNetwork`, there is no settlement-vs-token guard, and the backend
settlement-address mismatch is again swallowed. -/
def legacySubmitOrder (cfg : FrontendConfig) (o : OrderParams) : SubmitResult :=
  if cfg.chainKnown (if o.side = "ask" then o.fromNetwork else o.toNetwork) = false then
    .failedBeforeSubmit "Unknown network"
  else
    match cfg.tokenAddress o.fromNetwork o.baseAsset with
    | none => .failedBeforeSubmit "Token address not configured"
    | some baseTokenAddress =>
      match cfg.tokenAddress o.toNetwork o.quoteAsset with
      | none => .failedBeforeSubmit "Token address not configured"
      | some quoteTokenAddress =>
        match cfg.settlementAddress
            (if o.side = "ask" then o.fromNetwork else o.toNetwork) with
        | none => .failedBeforeSubmit "Settlement address not set"
        | some settlementAddr =>
          if cfg.nativeOk = false then
            .failedBeforeSubmit "INSUFFICIENT_PAYER_BALANCE"
          else if cfg.networkOk = false then
            .failedBeforeSubmit "Wrong network"
          else if cfg.escrowAvailable (tokenToUse o baseTokenAddress quoteTokenAddress) <
              amountToUse o ∧ cfg.depositOk = false then
            .failedBeforeSubmit "Failed to deposit to escrow"
          else if cfg.backendAccepts then
            .submitted ⟨(if o.side = "ask" then o.fromNetwork else o.toNetwork),
                tokenToUse o baseTokenAddress quoteTokenAddress, amountToUse o⟩
              (mismatchWarning cfg (if o.side = "ask" then o.fromNetwork else o.toNetwork)
                settlementAddr)
          else
            .rejectedByBackend ⟨(if o.side = "ask" then o.fromNetwork else o.toNetwork),
                tokenToUse o baseTokenAddress quoteTokenAddress, amountToUse o⟩
              (mismatchWarning cfg (if o.side = "ask" then o.fromNetwork else o.toNetwork)
                settlementAddr)

/-- The escrow pre-check a submit flow performed, when it got that
far. -/
def SubmitResult.precheck : SubmitResult → Option EscrowPrecheck
  | .failedBeforeSubmit _ => none
  | .rejectedByBackend pre _ => some pre
  | .submitted pre _ => some pre

/-- Whether the flow threw before reaching the order-registration
endpoint. -/
def SubmitResult.failedBefore : SubmitResult → Bool
  | .failedBeforeSubmit _ => true
  | _ => false

/-! ### Claim C7 -/

/-- **C7 (amended).** In the active submit paths (`baseSubmit` of
`useTrade.ts` and `submitOrder` of `useTradeCross.ts`), whenever the
escrow pre-check is reached it is performed against the submitter's
escrow on `from_network` for both sides, on the side-appropriate token
resolved on `from_network`, with required amount `quantity` of the base
asset for an ask and `quantity * price` of the quote asset for a bid.
(The legacy hook violates this: see the counterexample.) -/
theorem active_precheck_uses_fromNetwork (cfg : FrontendConfig)
    (o : OrderParams) (pre : EscrowPrecheck) :
    ((baseSubmit cfg o).precheck = some pre →
      pre.network = o.fromNetwork ∧
      cfg.tokenAddress o.fromNetwork
        (if o.side = "ask" then o.baseAsset else o.quoteAsset) = some pre.token ∧
      pre.amount = (if o.side = "ask" then o.quantity else o.quantity * o.price)) ∧
    ((submitOrderCross cfg o).precheck = some pre →
      pre.network = o.fromNetwork ∧
      cfg.tokenAddress o.fromNetwork
        (if o.side = "ask" then o.baseAsset else o.quoteAsset) = some pre.token ∧
      pre.amount = (if o.side = "ask" then o.quantity else o.quantity * o.price)) := by
  constructor
  · intro h
    unfold baseSubmit at h
    split at h
    · exact absurd h (by simp [SubmitResult.precheck])
    · split at h
      · exact absurd h (by simp [SubmitResult.precheck])
      · next baseTokenAddress hb =>
        split at h
        · exact absurd h (by simp [SubmitResult.precheck])
        · next quoteTokenAddress hq =>
          split at h
          · exact absurd h (by simp [SubmitResult.precheck])
          · next settlementAddr hsa =>
            split at h
            · exact absurd h (by simp [SubmitResult.precheck])
            · split at h
              · exact absurd h (by simp [SubmitResult.precheck])
              · split at h
                · exact absurd h (by simp [SubmitResult.precheck])
                · split at h
                  · exact absurd h (by simp [SubmitResult.precheck])
                  · split at h
                    all_goals
                      simp only [SubmitResult.precheck, Option.some.injEq] at h
                      subst h
                      refine ⟨rfl, ?_, rfl⟩
                      by_cases hside : o.side = "ask" <;>
                        simp [tokenToUse, hside, hb, hq]
  · intro h
    unfold submitOrderCross at h
    split at h
    · exact absurd h (by simp [SubmitResult.precheck])
    · next settlementAddr hsa =>
      split at h
      · next baseTokenAddressFrom quoteTokenAddressFrom hb hq =>
        split at h
        · exact absurd h (by simp [SubmitResult.precheck])
        · split at h
          · exact absurd h (by simp [SubmitResult.precheck])
          · split at h
            · exact absurd h (by simp [SubmitResult.precheck])
            · split at h
              all_goals
                simp only [SubmitResult.precheck, Option.some.injEq] at h
                subst h
                refine ⟨rfl, ?_, rfl⟩
                by_cases hside : o.side = "ask" <;>
                  simp [tokenToUse, hside, hb, hq]
      · exact absurd h (by simp [SubmitResult.precheck])

def cfgC7 : FrontendConfig where
  chainKnown := fun n => n == "hedera" || n == "polygon"
  tokenAddress := fun n a =>
    if n = "hedera" ∧ a = "HBAR" then some 21
    else if n = "hedera" ∧ a = "USDT" then some 22
    else if n = "polygon" ∧ a = "USDT" then some 42
    else none
  settlementAddress := fun n =>
    if n = "hedera" then some 50 else if n = "polygon" then some 60 else none
  backendSettlementAddress := fun _ => none
  networkOk := true
  nativeOk := true
  escrowAvailable := fun _ => 1000
  depositOk := true
  backendAccepts := true

def oC7 : OrderParams := ⟨"HBAR", "USDT", 3, 5, "bid", "hedera", "polygon"⟩

/-- **C7 (counterexample).** In the legacy hook, a bid order from
`hedera` to `polygon` performs its escrow pre-check on `polygon` — the
TO network — with the quote token resolved on `polygon`, contradicting
"the escrow pre-check is performed against the submitter's escrow on
from_network for both sides". -/
theorem legacy_precheck_counterexample :
    legacySubmitOrder cfgC7 oC7 = .submitted ⟨"polygon", 42, 15⟩ false ∧
    oC7.fromNetwork = "hedera" := by
  decide

theorem active_precheck_uses_fromNetwork_witness :
    (⟨"hedera", 22, 15⟩ : EscrowPrecheck).network = oC7.fromNetwork ∧
    cfgC7.tokenAddress oC7.fromNetwork
      (if oC7.side = "ask" then oC7.baseAsset else oC7.quoteAsset) =
      some (⟨"hedera", 22, 15⟩ : EscrowPrecheck).token ∧
    (⟨"hedera", 22, 15⟩ : EscrowPrecheck).amount =
      (if oC7.side = "ask" then oC7.quantity else oC7.quantity * oC7.price) :=
  (active_precheck_uses_fromNetwork cfgC7 oC7 ⟨"hedera", 22, 15⟩).1 (by decide)

/-! ### Claim C8 -/

/-- **C8 (amended).** A missing token address (for either asset on the
selected network) and a settlement address equal to a token address are
fatal at admission in both active submit paths: the flow throws before
the order is submitted to the book.  A settlement address mismatch
between client and operator, by contrast, is NOT fatal: `useTrade.ts`
wraps the comparison in a try/catch that only logs, and
`useTradeCross.ts` performs no such comparison (see the
counterexample). -/
theorem configError_fatal (cfg : FrontendConfig) (o : OrderParams)
    (hyp : cfg.tokenAddress o.fromNetwork o.baseAsset = none ∨
      cfg.tokenAddress o.fromNetwork o.quoteAsset = none ∨
      (∃ sa, cfg.settlementAddress o.fromNetwork = some sa ∧
        (cfg.tokenAddress o.fromNetwork o.baseAsset = some sa ∨
         cfg.tokenAddress o.fromNetwork o.quoteAsset = some sa))) :
    (baseSubmit cfg o).failedBefore = true ∧
    (submitOrderCross cfg o).failedBefore = true := by
  constructor
  · unfold baseSubmit
    split
    · rfl
    · rcases hyp with h0 | h0 | ⟨sa, hsa, hor⟩
      · rw [h0]
        exact rfl
      · cases hb : cfg.tokenAddress o.fromNetwork o.baseAsset with
        | none => exact rfl
        | some b =>
          rw [h0]
          exact rfl
      · cases hb : cfg.tokenAddress o.fromNetwork o.baseAsset with
        | none => exact rfl
        | some b =>
          cases hq : cfg.tokenAddress o.fromNetwork o.quoteAsset with
          | none => exact rfl
          | some q =>
            cases hsa2 : cfg.settlementAddress o.fromNetwork with
            | none =>
              rw [hsa2] at hsa
              exact absurd hsa (by simp)
            | some sa2 =>
              rw [hsa2] at hsa
              injection hsa with h3
              subst h3
              have hcond : sa2 = b ∨ sa2 = q := by
                rcases hor with h1 | h1
                · rw [hb] at h1
                  injection h1 with h2
                  exact Or.inl h2.symm
                · rw [hq] at h1
                  injection h1 with h2
                  exact Or.inr h2.symm
              simp [if_pos hcond, SubmitResult.failedBefore]
  · unfold submitOrderCross
    cases hsa2 : cfg.settlementAddress o.fromNetwork with
    | none => exact rfl
    | some sa2 =>
      cases hb : cfg.tokenAddress o.fromNetwork o.baseAsset with
      | none =>
        cases hq : cfg.tokenAddress o.fromNetwork o.quoteAsset <;> exact rfl
      | some b =>
        cases hq : cfg.tokenAddress o.fromNetwork o.quoteAsset with
        | none => exact rfl
        | some q =>
          rcases hyp with h0 | h0 | ⟨sa, hsa, hor⟩
          · rw [h0] at hb
            exact absurd hb (by simp)
          · rw [h0] at hq
            exact absurd hq (by simp)
          · rw [hsa2] at hsa
            injection hsa with h3
            subst h3
            have hcond : sa2 = b ∨ sa2 = q := by
              rcases hor with h1 | h1
              · rw [hb] at h1
                injection h1 with h2
                exact Or.inl h2.symm
              · rw [hq] at h1
                injection h1 with h2
                exact Or.inr h2.symm
            simp [if_pos hcond, SubmitResult.failedBefore]

def cfgC8 : FrontendConfig where
  chainKnown := fun n => n == "hedera"
  tokenAddress := fun n a =>
    if n = "hedera" ∧ a = "HBAR" then some 21
    else if n = "hedera" ∧ a = "USDT" then some 22
    else none
  settlementAddress := fun n => if n = "hedera" then some 50 else none
  backendSettlementAddress := fun n => if n = "hedera" then some 77 else none
  networkOk := true
  nativeOk := true
  escrowAvailable := fun _ => 1000
  depositOk := true
  backendAccepts := true

def oC8 : OrderParams := ⟨"HBAR", "USDT", 3, 5, "bid", "hedera", "hedera"⟩

/-- **C8 (counterexample).** The client's settlement address (50) and
the operator's (77) differ; the comparison in `baseSubmit` detects the
mismatch (`mismatchWarned = true`) — but the error it throws is caught
by the surrounding try/catch and only logged, so the order is STILL
submitted to the book, contradicting "settlement address mismatch ...
fatal at admission". -/
theorem settlement_mismatch_not_fatal :
    cfgC8.backendSettlementAddress oC8.fromNetwork = some 77 ∧
    cfgC8.settlementAddress oC8.fromNetwork = some 50 ∧
    baseSubmit cfgC8 oC8 = .submitted ⟨"hedera", 22, 15⟩ true := by
  decide

def oC8w : OrderParams := ⟨"HBAR", "EURC", 3, 5, "bid", "hedera", "hedera"⟩

theorem configError_fatal_witness :
    (baseSubmit cfgC8 oC8w).failedBefore = true ∧
    (submitOrderCross cfgC8 oC8w).failedBefore = true :=
  configError_fatal cfgC8 oC8w (Or.inr (Or.inl (by decide)))

end NeoBanka
